import Mathlib

/-
Verification of the Link-to-Social agentic workflow (Python sources under
src/).  The development shallowly embeds the coordinator pipeline
(src/workflow/coordinator.py), the summarization agent
(src/agents/summarization_agent.py), the creative agent
(src/agents/creative_agent.py) and the /process endpoint (src/app.py).

Modelling conventions:
- Python dynamic values (dict entries, audit summaries) are embedded as the
  inductive `PyVal`.  Python `None` is `PyVal.null`; wall-clock numbers
  (timestamps, durations) are the opaque `PyVal.time` since no claim
  mentions them.  `AuditEntry` likewise omits the timestamp and duration
  fields of the source dict.
- Operations that can raise in Python (`len`, `.get` on a non-dict, slicing,
  `+`) return `Except String` with the exception text as the error; a `try`
  block in the source becomes a `match` on such an `Except` value, the
  `except` handler becomes the `.error` branch.
- Remote calls are oracles: `loads` stands for `json.loads` (String to
  parsed value, or a decode failure), `apiScrape` and `apiDirect` stand for
  the two Venice chat-completion transports in the summarization agent
  (`.ok` carries the message content of a 200 response, `.error` carries
  the text of the exception the transport helper raised), and `imgs` stands
  for the pair of image generations in the creative agent.
- Python strings are Lean `String`; `len`, slicing and `strip` act on code
  points, matching the `s.data : List Char` view used below.
-/

set_option maxRecDepth 8000

/-- Embedded Python run-time value (the subset the workflow manipulates). -/
inductive PyVal where
  | null
  | bool (b : Bool)
  | num (n : Nat)
  | str (s : String)
  | list (xs : List PyVal)
  | dict (kvs : List (String × PyVal))
  | time
deriving Repr

/-- Python type name of a value, as it appears in CPython error messages. -/
def pyTypeName : PyVal → String
  | .null => "\x27NoneType\x27"
  | .bool _ => "\x27bool\x27"
  | .num _ => "\x27int\x27"
  | .str _ => "\x27str\x27"
  | .list _ => "\x27list\x27"
  | .dict _ => "\x27dict\x27"
  | .time => "\x27float\x27"

/-- Python truthiness of an embedded value. -/
def pyBool : PyVal → Bool
  | .null => false
  | .bool b => b
  | .num n => n != 0
  | .str s => s != ""
  | .list xs => !xs.isEmpty
  | .dict kvs => !kvs.isEmpty
  | .time => true

/-- Python `len(v)`; raises `TypeError` on values without a length. -/
def pyLen : PyVal → Except String Nat
  | .str s => .ok s.length
  | .list xs => .ok xs.length
  | .dict kvs => .ok kvs.length
  | v => .error ("object of type " ++ pyTypeName v ++ " has no len()")

/-- Python `v.get(k, d)`: default on a missing key, `AttributeError` when the
receiver is not a dict. -/
def pyGetD (v : PyVal) (k : String) (d : PyVal) : Except String PyVal :=
  match v with
  | .dict kvs => .ok ((kvs.lookup k).getD d)
  | _ => .error (pyTypeName v ++ " object has no attribute \x27get\x27")

/-- Python one-argument `v.get(k)` (default `None`). -/
def pyGet1 (v : PyVal) (k : String) : Except String PyVal :=
  pyGetD v k .null

/-- Direct key lookup in a dict value (used to state properties of results). -/
def pvLookup (v : PyVal) (k : String) : Option PyVal :=
  match v with
  | .dict kvs => kvs.lookup k
  | _ => none

/-- Whether a value is a Python dict. -/
def isDict : PyVal → Bool
  | .dict _ => true
  | _ => false

/-- Python slicing `v[:n]` on strings and lists. -/
def pySliceTake (v : PyVal) (n : Nat) : Except String PyVal :=
  match v with
  | .str s => .ok (.str (String.mk (s.data.take n)))
  | .list xs => .ok (.list (xs.take n))
  | v => .error ("unsupported operand for slicing: " ++ pyTypeName v)

/-- Python `a + b` on embedded values (string and list concatenation only). -/
def pyAdd (a b : PyVal) : Except String PyVal :=
  match a, b with
  | .str x, .str y => .ok (.str (String.mk (x.data ++ y.data)))
  | .list x, .list y => .ok (.list (x ++ y))
  | a, b => .error ("can only concatenate " ++ pyTypeName a ++ " and " ++ pyTypeName b)

mutual

/-- Python `str(v)` as used in f-string interpolation.  Every reachable use in
the embedded code applies it to a string; the remaining branches follow the
CPython rendering. -/
def pyStr : PyVal → String
  | .str s => s
  | .null => "None"
  | .bool b => if b then "True" else "False"
  | .num n => toString n
  | .list xs => "[" ++ pyReprList xs ++ "]"
  | .dict kvs => "\x7b" ++ pyReprKvs kvs ++ "\x7d"
  | .time => "0.0"

/-- Python `repr(v)` (strings quoted), for elements inside containers. -/
def pyRepr : PyVal → String
  | .str s => "\x27" ++ s ++ "\x27"
  | v => pyStr v

/-- Comma-separated reprs of list elements. -/
def pyReprList : List PyVal → String
  | [] => ""
  | [v] => pyRepr v
  | v :: vs => pyRepr v ++ ", " ++ pyReprList vs

/-- Comma-separated reprs of dict items. -/
def pyReprKvs : List (String × PyVal) → String
  | [] => ""
  | [(k, v)] => "\x27" ++ k ++ "\x27: " ++ pyRepr v
  | (k, v) :: kvs => "\x27" ++ k ++ "\x27: " ++ pyRepr v ++ ", " ++ pyReprKvs kvs

end

mutual

/-- All strings occurring as string leaves inside a value (used to state that
audit summaries carry no image payload). -/
def stringsOf : PyVal → List String
  | .str s => [s]
  | .list xs => stringsOfList xs
  | .dict kvs => stringsOfKvs kvs
  | _ => []

/-- Strings occurring in a list of values. -/
def stringsOfList : List PyVal → List String
  | [] => []
  | v :: vs => stringsOf v ++ stringsOfList vs

/-- Strings occurring in dict values (keys are fixed literals in the source). -/
def stringsOfKvs : List (String × PyVal) → List String
  | [] => []
  | (_, v) :: kvs => stringsOf v ++ stringsOfKvs kvs

end

/-- Characters Python `str.strip` removes. -/
def isPyWs (c : Char) : Bool :=
  c = ' ' || c = '\t' || c = '\n' || c = '\r' || c = '\x0b' || c = '\x0c'

/-- Python `s.strip()` on code points. -/
def pyStrip (s : String) : String :=
  String.mk (((s.data.dropWhile isPyWs).reverse.dropWhile isPyWs).reverse)

/-- Python `s[:n]`. -/
def pyTake (s : String) (n : Nat) : String :=
  String.mk (s.data.take n)

/-- Python `s.startswith(p)`. -/
def pyStartsWith (s p : String) : Bool :=
  p.data.isPrefixOf s.data

/-- Python `s.endswith(p)`. -/
def pyEndsWith (s p : String) : Bool :=
  p.data.isSuffixOf s.data

/-- Python `s[n:]`. -/
def pyDropLeft (s : String) (n : Nat) : String :=
  String.mk (s.data.drop n)

/-- Python `s[:-n]`. -/
def pyDropEnd (s : String) (n : Nat) : String :=
  String.mk (s.data.take (s.data.length - n))

/-- Code-fence stripping and trimming at the start of
`SummarizationAgent._parse_response` (summarization_agent.py lines 520-529):
strip, peel a leading three-backtick json fence or bare fence, peel a
trailing fence, strip again. -/
def stripFences (s : String) : String :=
  let t := pyStrip s
  let t := if pyStartsWith t "```json" then pyDropLeft t 7 else t
  let t := if pyStartsWith t "```" then pyDropLeft t 3 else t
  let t := if pyEndsWith t "```" then pyDropEnd t 3 else t
  pyStrip t

/-- Embeds `SummarizationAgent._parse_response` (summarization_agent.py
lines 518-559).  `loads` is the `json.loads` oracle; its `.error` outcome is
the `json.JSONDecodeError` caught by the function, which produces the
degraded fallback dict from the cleaned text.  All other exceptions
(`AttributeError` from `.get` on a non-dict, `TypeError` from `len` or `+`)
propagate as the `.error` of the result. -/
def parse_response (loads : String → Except Unit PyVal) (response_text : String) :
    Except String PyVal :=
  let rt := stripFences response_text
  match loads rt with
  | .error _ =>
      .ok (.dict [("linkedin_post", .str (pyTake rt 500)),
                  ("twitter_post", .str (pyTake rt 280)),
                  ("key_insights", .list []),
                  ("article_title", .str "Untitled Article"),
                  ("article_author", .null),
                  ("article_date", .null)])
  | .ok data => do
      let lv ← pyGetD data "linkedin_post" (.str "")
      let tv0 ← pyGetD data "twitter_post" (.str "")
      let n ← pyLen tv0
      let tv ←
        if 280 < n then do
          let sl ← pySliceTake tv0 277
          pyAdd sl (.str "...")
        else
          .ok tv0
      let kv ← pyGetD data "key_insights" (.list [])
      let ti ← pyGetD data "article_title" (.str "Untitled Article")
      let au ← pyGet1 data "article_author"
      let da ← pyGet1 data "article_date"
      .ok (.dict [("linkedin_post", lv),
                  ("twitter_post", tv),
                  ("key_insights", kv),
                  ("article_title", ti),
                  ("article_author", au),
                  ("article_date", da)])

/-- The error dict returned by the `except` handlers of
`SummarizationAgent.generate_posts_from_text` and `generate_posts`
(summarization_agent.py lines 59-64 and 102-107). -/
def errorPostsDict (e : String) : PyVal :=
  .dict [("status", .str "error"), ("error", .str e),
         ("linkedin_post", .null), ("twitter_post", .null)]

/-- The success return dict of `SummarizationAgent.generate_posts_from_text`
and `generate_posts` (summarization_agent.py lines 45-53 and 88-96), built
by `.get` reads on the parse result. -/
def successPostsDict (posts : PyVal) : Except String PyVal := do
  let lp ← pyGetD posts "linkedin_post" (.str "")
  let tp ← pyGetD posts "twitter_post" (.str "")
  let ki ← pyGetD posts "key_insights" (.list [])
  let ti ← pyGetD posts "article_title" (.str "")
  let au ← pyGet1 posts "article_author"
  let da ← pyGet1 posts "article_date"
  .ok (.dict [("status", .str "success"),
              ("linkedin_post", lp),
              ("twitter_post", tp),
              ("key_insights", ki),
              ("article_title", ti),
              ("article_author", au),
              ("article_date", da)])

/-- Shared body of `SummarizationAgent.generate_posts_from_text` and
`generate_posts` (summarization_agent.py lines 38-64 and 81-107): the two
functions differ only in which transport helper they await, which is
abstracted by the `api` oracle.  A falsy (empty) response raises
`Empty response from API`; every exception inside the `try` lands in
`errorPostsDict`. -/
def postsFromApi (loads : String → Except Unit PyVal) (api : Except String String) :
    PyVal :=
  match api with
  | .error e => errorPostsDict e
  | .ok response =>
      if response = "" then errorPostsDict "Empty response from API"
      else
        match parse_response loads response with
        | .error e => errorPostsDict e
        | .ok posts =>
            match successPostsDict posts with
            | .ok d => d
            | .error e => errorPostsDict e

/-- Embeds `SummarizationAgent.generate_posts` (URL and web-scraping path). -/
def generate_posts (loads : String → Except Unit PyVal) (api : Except String String) :
    PyVal :=
  postsFromApi loads api

/-- Embeds `SummarizationAgent.generate_posts_from_text` (direct-text path). -/
def generate_posts_from_text (loads : String → Except Unit PyVal)
    (api : Except String String) : PyVal :=
  postsFromApi loads api

/-- Embeds `CreativeAgent.generate_images` (creative_agent.py lines 24-70).
The oracle carries the two base64 payloads returned by the image provider on
success; any exception raised inside the `try` (provider failure, missing
image, unsliceable insights) is the `.error` outcome and produces the error
dict of the `except` handler. -/
def generate_images (outcome : Except String (String × String)) : PyVal :=
  match outcome with
  | .ok (info, social) =>
      .dict [("status", .str "success"),
             ("infographic_image", .str info),
             ("social_image", .str social)]
  | .error e =>
      .dict [("status", .str "error"), ("error", .str e),
             ("infographic_image", .null), ("social_image", .null)]

/-- One record of the audit trail, as built by `Coordinator._add_audit_entry`
(coordinator.py lines 53-70).  The wall-clock `timestamp` and `duration_ms`
fields of the source dict are omitted (no claim mentions them). -/
structure AuditEntry where
  agent : String
  step : String
  status : String
  input : PyVal
  output : PyVal
deriving Repr

/-- Final output envelope of `Coordinator._coordinator_node` and of the
early-validation returns of `Coordinator.process_url`.  An `Option` field set
to `none` models the corresponding key being absent from the Python dict.
The `audit_trail` key of the Python dict is not stored here: it aliases the
single mutable trail list of the run (appends made after the dict is built
remain visible through it), so the trail travels separately in
`ProcessResult`. -/
structure FinalOutput where
  status : String
  error : Option String
  url : Option String
  articleTitle : Option PyVal
  articleAuthor : Option PyVal
  articleDate : Option PyVal
  posts : Option (PyVal × PyVal × PyVal)
  images : Option (PyVal × PyVal)
deriving Repr

/-- The LangGraph `WorkflowState` TypedDict (coordinator.py lines 15-24). -/
structure WorkflowState where
  url : String
  article_text : String
  use_web_scraping : Bool
  posts_data : PyVal
  images_data : PyVal
  final_output : Option FinalOutput
  error : String
  audit_trail : List AuditEntry
deriving Repr

/-- Embeds `Coordinator._add_audit_entry`: appends one entry to the trail. -/
def add_audit_entry (st : WorkflowState) (agent step : String)
    (input output : PyVal) (status : String) : WorkflowState :=
  { st with audit_trail :=
      st.audit_trail ++ [{ agent := agent, step := step, status := status,
                           input := input, output := output }] }

/-- The three-way content-source decision at the top of
`Coordinator._summarizer_node` (coordinator.py lines 79-100):
`use_scraping = state.get("use_web_scraping", False) and state.get("url", "")`
guards the scraping path, a non-empty `article_text` guards the direct-text
path, and otherwise a `ValueError` is raised. -/
inductive SourceChoice where
  | urlScraping
  | directText
  | invalid
deriving Repr, DecidableEq

/-- Content-source resolution of `Coordinator._summarizer_node`. -/
def resolveChoice (use_web_scraping : Bool) (url article_text : String) :
    SourceChoice :=
  if use_web_scraping ∧ url ≠ "" then .urlScraping
  else if article_text ≠ "" then .directText
  else .invalid

/-- Intermediate data of the `try` block of `Coordinator._summarizer_node`:
audit input summary, agent result, audit output summary, the status value
`posts_data.get("status")`, and the error value
`posts_data.get("error", "Unknown error")`. -/
structure SummTry where
  input_data : PyVal
  posts : PyVal
  output_data : PyVal
  statusVal : PyVal
  errVal : PyVal

/-- Audit input summary for the scraping path (coordinator.py lines 84-88). -/
def urlInputData (st : WorkflowState) : PyVal :=
  .dict [("type", .str "url"), ("url", .str st.url),
         ("method", .str "venice_web_scraping")]

/-- Audit input summary for the direct-text path (coordinator.py
lines 92-97), with the 200-character preview. -/
def textInputData (st : WorkflowState) : PyVal :=
  .dict [("type", .str "text"),
         ("text_length", .num st.article_text.length),
         ("text_preview",
           .str (if 200 < st.article_text.length then
                   String.mk (st.article_text.data.take 200 ++ "...".data)
                 else st.article_text)),
         ("method", .str "direct_text")]

/-- The fallible part of the `try` block of `Coordinator._summarizer_node`
after the agent call returned `posts`: building `output_data`
(coordinator.py lines 105-113, where `len` of a `None` post raises
`TypeError`) and reading the status.  The status read (line 117) and the
error read (line 118) are bound here as well; they can only fail when
`posts` is not a dict, in which case the first `get` of line 107 has already
failed with the same message, so the binding order preserves behaviour. -/
def summTryBody (input_data posts : PyVal) : Except String SummTry := do
  let sv ← pyGet1 posts "status"
  let lv ← pyGetD posts "linkedin_post" (.str "")
  let l1 ← pyLen lv
  let tv ← pyGetD posts "twitter_post" (.str "")
  let l2 ← pyLen tv
  let kv ← pyGetD posts "key_insights" (.list [])
  let l3 ← pyLen kv
  let ti ← pyGetD posts "article_title" (.str "")
  let au ← pyGet1 posts "article_author"
  let da ← pyGet1 posts "article_date"
  let ev ← pyGetD posts "error" (.str "Unknown error")
  .ok { input_data := input_data, posts := posts,
        output_data := .dict [("status", sv),
                              ("linkedin_post_length", .num l1),
                              ("twitter_post_length", .num l2),
                              ("key_insights_count", .num l3),
                              ("article_title", ti),
                              ("article_author", au),
                              ("article_date", da)],
        statusVal := sv, errVal := ev }

/-- The whole `try` block of `Coordinator._summarizer_node`: choose the
content source (raising `ValueError` when neither applies), call the
corresponding agent coroutine, then build the audit summaries. -/
def summarizerTry (loads : String → Except Unit PyVal)
    (apiScrape apiDirect : Except String String) (st : WorkflowState) :
    Except String SummTry :=
  match resolveChoice st.use_web_scraping st.url st.article_text with
  | .urlScraping => summTryBody (urlInputData st) (generate_posts loads apiScrape)
  | .directText =>
      summTryBody (textInputData st) (generate_posts_from_text loads apiDirect)
  | .invalid =>
      .error "Either URL with web scraping enabled or article_text must be provided"

/-- The status-error branch of `Coordinator._summarizer_node` (lines 117-121):
sets the run error from the posts error value and logs one error entry. -/
def summErrStatus (st : WorkflowState) (t : SummTry) : WorkflowState :=
  let msg := "Post generation failed: " ++ pyStr t.errVal
  add_audit_entry { st with error := msg } "SummarizationAgent" "generate_posts"
    t.input_data (.dict [("error", .str msg)]) "error"

/-- Embeds `Coordinator._summarizer_node` (coordinator.py lines 72-139).
On an exception the handler records the error, replaces `posts_data` with a
two-key error dict and logs one error entry; otherwise exactly one entry is
logged, success or error according to the posts status. -/
def summarizer_node (loads : String → Except Unit PyVal)
    (apiScrape apiDirect : Except String String) (st : WorkflowState) :
    WorkflowState :=
  match summarizerTry loads apiScrape apiDirect st with
  | .error e =>
      let st1 := { st with
        error := "Summarizer error: " ++ e,
        posts_data := .dict [("status", .str "error"), ("error", .str e)] }
      add_audit_entry st1 "SummarizationAgent" "generate_posts"
        (.dict [("type", .str (if st.url ≠ "" then "url" else "text")),
                ("url", .str st.url),
                ("text_length", .num st.article_text.length)])
        (.dict [("error", .str e)]) "error"
  | .ok t =>
      let st1 := { st with posts_data := t.posts }
      match t.statusVal with
      | .str s =>
          if s = "success" then
            add_audit_entry st1 "SummarizationAgent" "generate_posts"
              t.input_data t.output_data "success"
          else summErrStatus st1 t
      | _ => summErrStatus st1 t

/-- Intermediate data of the `try` block of `Coordinator._creative_node`:
audit input summary, images result, status and error values, and the success
output summary (`none` when the images status is not success, in which case
the error branch of lines 178-183 runs). -/
structure CreTry where
  input_data : PyVal
  images : PyVal
  errVal : PyVal
  successOut : Option PyVal

/-- The `try` block of `Coordinator._creative_node` (coordinator.py lines
146-193): read title, author, date and insights from `posts_data` (a `len`
on unsized insights raises), build the audit input summary, call the
creative agent, then branch on the images status.  The status and error
reads on `images` cannot fail (`generate_images` always returns a dict);
the success summary reads are only performed in the success branch, as in
the source. -/
def creativeTry (imgs : Except String (String × String)) (st : WorkflowState) :
    Except String CreTry := do
  let title ← pyGetD st.posts_data "article_title" (.str "Article")
  let _au ← pyGet1 st.posts_data "article_author"
  let _da ← pyGet1 st.posts_data "article_date"
  let kv ← pyGetD st.posts_data "key_insights" (.list [])
  let k ← pyLen kv
  let input_data : PyVal :=
    .dict [("article_title", title),
           ("key_insights_count", .num k),
           ("images_to_generate", .list [.str "infographic", .str "social_media"])]
  let images := generate_images imgs
  let sv ← pyGet1 images "status"
  let ev ← pyGetD images "error" (.str "Unknown error")
  match sv with
  | .str s =>
      if s = "success" then do
        let iv1 ← pyGet1 images "infographic_image"
        let sv1 ← pyGet1 images "social_image"
        let ivd ← pyGetD images "infographic_image" (.str "")
        let svd ← pyGetD images "social_image" (.str "")
        let il ← pyLen ivd
        let sl ← pyLen svd
        .ok { input_data := input_data, images := images, errVal := ev,
              successOut := some (.dict
                [("status", .str "success"),
                 ("infographic_generated", .bool (pyBool iv1)),
                 ("social_image_generated", .bool (pyBool sv1)),
                 ("infographic_size_chars", .num il),
                 ("social_image_size_chars", .num sl)]) }
      else .ok { input_data := input_data, images := images, errVal := ev,
                 successOut := none }
  | _ => .ok { input_data := input_data, images := images, errVal := ev,
               successOut := none }

/-- Embeds `Coordinator._creative_node` (coordinator.py lines 141-204).
When a previous stage already set the error flag the node does no work and
records the single skip entry of lines 149-153; otherwise it runs the `try`
block, with the `except` handler of lines 195-202 as the `.error` branch. -/
def creative_node (imgs : Except String (String × String)) (st : WorkflowState) :
    WorkflowState :=
  if st.error ≠ "" then
    add_audit_entry
      { st with images_data := .dict [("status", .str "error"),
                                      ("error", .str "Previous step failed")] }
      "CreativeAgent" "generate_images"
      (.dict [("reason", .str "skipped_due_to_error")])
      (.dict [("error", .str "Previous step failed")]) "error"
  else
    match creativeTry imgs st with
    | .error e =>
        add_audit_entry
          { st with error := "Creative error: " ++ e,
                    images_data := .dict [("status", .str "error"),
                                          ("error", .str e)] }
          "CreativeAgent" "generate_images"
          (.dict [("error", .str "exception")]) (.dict [("error", .str e)]) "error"
    | .ok t =>
        let st1 := { st with images_data := t.images }
        match t.successOut with
        | some outd =>
            add_audit_entry st1 "CreativeAgent" "generate_images"
              t.input_data outd "success"
        | none =>
            let msg := "Image generation failed: " ++ pyStr t.errVal
            add_audit_entry { st1 with error := msg } "CreativeAgent"
              "generate_images" t.input_data (.dict [("error", .str msg)]) "error"

/-- The failure envelope of the finalize stage (coordinator.py lines
215-220), as a function of the state it is built from. -/
def errorEnvelope (st : WorkflowState) : FinalOutput :=
  { status := "error", error := some st.error, url := some st.url,
    articleTitle := none, articleAuthor := none, articleDate := none,
    posts := none, images := none }

/-- The success envelope of the finalize stage (coordinator.py lines
236-255), as a function of the fields read from the stage results. -/
def successEnvelope (st : WorkflowState) (ti au da lp tp ki inf soc : PyVal) :
    FinalOutput :=
  { status := "success", error := none, url := some st.url,
    articleTitle := some ti, articleAuthor := some au, articleDate := some da,
    posts := some (lp, tp, ki), images := some (inf, soc) }

/-- The success branch of `Coordinator._coordinator_node` (lines 225-265).
It reads posts and images fields (which raises only when one of them is not
a dict, impossible in pipeline-reachable states) and builds the success
envelope; the `output_keys` list reproduces the key order of the final
output dict of lines 236-255. -/
def coordinatorSuccess (st : WorkflowState) : Except String WorkflowState := do
    let posts := st.posts_data
    let images := st.images_data
    let ps ← pyGet1 posts "status"
    let ims ← pyGet1 images "status"
    let input_data : PyVal :=
      .dict [("posts_data_available", .bool (pyBool posts)),
             ("images_data_available", .bool (pyBool images)),
             ("posts_status", ps),
             ("images_status", ims)]
    let ti ← pyGetD posts "article_title" (.str "")
    let au ← pyGet1 posts "article_author"
    let da ← pyGet1 posts "article_date"
    let lp ← pyGetD posts "linkedin_post" (.str "")
    let tp ← pyGetD posts "twitter_post" (.str "")
    let ki ← pyGetD posts "key_insights" (.list [])
    let inf ← pyGet1 images "infographic_image"
    let soc ← pyGet1 images "social_image"
    let fo := successEnvelope st ti au da lp tp ki inf soc
    let st1 := { st with final_output := some fo }
    let output_data : PyVal :=
      .dict [("status", .str "success"),
             ("output_keys", .list [.str "status", .str "url", .str "article",
                                    .str "posts", .str "images",
                                    .str "audit_trail"]),
             ("audit_trail_entries", .num st1.audit_trail.length)]
    .ok (add_audit_entry st1 "Coordinator" "compile_output"
          input_data output_data "success")

/-- Embeds `Coordinator._coordinator_node` (coordinator.py lines 206-265),
the finalize stage.  The error branch builds the error envelope and cannot
raise; the success branch is `coordinatorSuccess`. -/
def coordinator_node (st : WorkflowState) : Except String WorkflowState :=
  if st.error ≠ "" then
    .ok (add_audit_entry { st with final_output := some (errorEnvelope st) }
      "Coordinator" "compile_output"
      (.dict [("has_error", .bool true)])
      (.dict [("error", .str st.error)]) "error")
  else coordinatorSuccess st

/-- What `Coordinator.process_url` returns: the final output dict.  Its
`audit_trail` key aliases the mutable trail list of the run, so appends made
after the dict was built (the `compile_output` and `workflow_complete`
entries) are visible through it; the trail therefore travels as a separate
field holding its final value. -/
structure ProcessResult where
  output : FinalOutput
  audit_trail : List AuditEntry
deriving Repr

/-- The initial `WorkflowState` of `Coordinator.process_url`
(coordinator.py lines 293-302). -/
def initialState (url article_text : String) (use_web_scraping : Bool) :
    WorkflowState :=
  { url := url, article_text := article_text,
    use_web_scraping := use_web_scraping,
    posts_data := .dict [], images_data := .dict [], final_output := none,
    error := "", audit_trail := [] }

/-- The state after the `workflow_start` audit entry (lines 304-312). -/
def startedState (url article_text : String) (use_web_scraping : Bool) :
    WorkflowState :=
  add_audit_entry (initialState url article_text use_web_scraping)
    "System" "workflow_start"
    (.dict [("method", .str (if use_web_scraping ∧ url ≠ "" then
                               "url_with_scraping" else "direct_text")),
            ("url", if url ≠ "" then .str url else .null),
            ("text_length", if article_text ≠ "" then .num article_text.length
                            else .null)])
    (.dict [("workflow_initialized", .bool true)]) "success"

/-- An early-validation error envelope of `Coordinator.process_url`
(lines 279-291); the dict has no `url` key and the trail is empty. -/
def invalidEnvelope (msg : String) : ProcessResult :=
  { output := { status := "error", error := some msg, url := none,
                articleTitle := none, articleAuthor := none,
                articleDate := none, posts := none, images := none },
    audit_trail := [] }

/-- Embeds `Coordinator.process_url` (coordinator.py lines 267-332): input
validation, initial state and `workflow_start` entry, the linear LangGraph
run (summarizer, creative, coordinator), the `workflow_complete` entry, and
the returned final output.  A raise escaping the graph run would surface as
`.error`; the pipeline lemmas below show this never happens. -/
def process_url (loads : String → Except Unit PyVal)
    (apiScrape apiDirect : Except String String)
    (imgs : Except String (String × String))
    (url article_text : String) (use_web_scraping : Bool) :
    Except String ProcessResult :=
  if url = "" ∧ article_text = "" then
    .ok (invalidEnvelope
      "Either URL (with use_web_scraping=True) or article_text must be provided")
  else if use_web_scraping ∧ url = "" then
    .ok (invalidEnvelope "URL is required when use_web_scraping is True")
  else do
    let st3 ← coordinator_node
      (creative_node imgs
        (summarizer_node loads apiScrape apiDirect
          (startedState url article_text use_web_scraping)))
    match st3.final_output with
    | some fo =>
        .ok { output := fo,
              audit_trail := st3.audit_trail ++
                [{ agent := "System", step := "workflow_complete",
                   status := fo.status,
                   input := .dict [("total_duration_ms", .time)],
                   output := .dict [("status", .str fo.status),
                                    ("total_audit_entries",
                                      .num st3.audit_trail.length)] }] }
    | none =>
        .ok { output := { status := "error",
                          error := some "Workflow execution failed",
                          url := some url, articleTitle := none,
                          articleAuthor := none, articleDate := none,
                          posts := none, images := none },
              audit_trail := st3.audit_trail ++
                [{ agent := "System", step := "workflow_complete",
                   status := "error",
                   input := .dict [("total_duration_ms", .time)],
                   output := .dict [("status", .str "unknown"),
                                    ("total_audit_entries",
                                      .num st3.audit_trail.length)] }] }

/-- The node wiring of `Coordinator._build_workflow` (coordinator.py lines
35-51): unconditional edges of the compiled LangGraph graph, with `END`
rendered as the node name `"END"`. -/
def workflowEdges : List (String × String) :=
  [("summarizer", "creative"), ("creative", "coordinator"), ("coordinator", "END")]

/-- The entry point set by `workflow.set_entry_point("summarizer")`. -/
def entryPoint : String := "summarizer"

/-- Successor of a node in the graph (edges are unconditional). -/
def nextAfter (n : String) : Option String :=
  workflowEdges.lookup n

/-- The sequence of nodes executed starting from `n` (fuel-bounded walk of
the finite graph; `END` executes nothing). -/
def pathFrom : Nat → String → List String
  | 0, _ => []
  | fuel + 1, n =>
      if n = "END" then []
      else
        n :: (match nextAfter n with
              | some m => pathFrom fuel m
              | none => [])

/-- Interpretation of a graph node name as its state transformer, with the
stage oracles fixed; unknown names are the identity. -/
def nodeFun (loads : String → Except Unit PyVal)
    (apiScrape apiDirect : Except String String)
    (imgs : Except String (String × String)) :
    String → WorkflowState → Except String WorkflowState
  | "summarizer" => fun st => .ok (summarizer_node loads apiScrape apiDirect st)
  | "creative" => fun st => .ok (creative_node imgs st)
  | "coordinator" => coordinator_node
  | _ => fun st => .ok st

/-- Runs a list of graph nodes in order, propagating a raise. -/
def runNodes (loads : String → Except Unit PyVal)
    (apiScrape apiDirect : Except String String)
    (imgs : Except String (String × String)) :
    List String → WorkflowState → Except String WorkflowState
  | [], st => .ok st
  | n :: ns, st => do
      let st1 ← nodeFun loads apiScrape apiDirect imgs n st
      runNodes loads apiScrape apiDirect imgs ns st1

/-- Body of the `POST /process` request (src/app.py): optional `url`,
optional `article_text`, and the `use_web_scraping` flag. -/
structure ProcessRequest where
  url : Option String
  article_text : Option String
  use_web_scraping : Bool

/-- Outcome of the `/process` endpoint: a JSON 200 response or an
`HTTPException` with a status code and detail string. -/
inductive HttpOutcome where
  | ok (body : ProcessResult)
  | err (statusCode : Nat) (detail : String)
deriving Repr

/-- Embeds the `/process` handler of src/app.py (lines 1193-1249): the two
input validations raise 400 before any stage runs, a coordinator result
with error status is surfaced as 400 with the result error as detail, an
unexpected exception as 500. -/
def appProcess (loads : String → Except Unit PyVal)
    (apiScrape apiDirect : Except String String)
    (imgs : Except String (String × String)) (req : ProcessRequest) :
    HttpOutcome :=
  if req.url.getD "" = "" ∧ req.article_text.getD "" = "" then
    .err 400
      "Either \x27url\x27 (with use_web_scraping=True) or \x27article_text\x27 must be provided"
  else if req.use_web_scraping ∧ req.url.getD "" = "" then
    .err 400 "URL is required when use_web_scraping is True"
  else
    match process_url loads apiScrape apiDirect imgs (req.url.getD "")
        (req.article_text.getD "") req.use_web_scraping with
    | .error e => .err 500 ("Internal server error: " ++ e)
    | .ok r =>
        if r.output.status = "error" then
          .err 400 ((r.output.error).getD "Processing failed")
        else .ok r

/-- A json.loads model that decodes the text of an empty JSON array, the
way CPython json.loads maps the two-character input to an empty list. -/
def loadsEmptyList : String → Except Unit PyVal := fun s =>
  if s = "[]" then .ok (.list []) else .error ()

/-- A provider oracle returning a structured object with a 300-character
twitter post, used to witness the truncation law. -/
def loadsLong : String → Except Unit PyVal := fun s =>
  if s = "longcase" then
    .ok (.dict [("twitter_post", .str (String.mk (List.replicate 300 'a')))])
  else .error ()

/-- The audit input summary of a successful image stage (coordinator.py
lines 163-167): title, insight count and the fixed plan list. -/
def imagesAuditInput (tv : PyVal) (n : Nat) : PyVal :=
  .dict [("article_title", tv), ("key_insights_count", .num n),
         ("images_to_generate", .list [.str "infographic", .str "social_media"])]

/-- The audit output summary of a successful image stage (coordinator.py
lines 185-191): generated booleans and character lengths only. -/
def imagesAuditOutput (b1 b2 : String) : PyVal :=
  .dict [("status", .str "success"),
         ("infographic_generated", .bool (b1 != "")),
         ("social_image_generated", .bool (b2 != "")),
         ("infographic_size_chars", .num b1.length),
         ("social_image_size_chars", .num b2.length)]

/-- The audit entry of a successful image stage. -/
def imagesAuditEntry (tv : PyVal) (n : Nat) (b1 b2 : String) : AuditEntry :=
  { agent := "CreativeAgent", step := "generate_images", status := "success",
    input := imagesAuditInput tv n, output := imagesAuditOutput b1 b2 }

/-- A provider oracle returning a well-formed structured object, used to
witness a fully successful run. -/
def goodLoads : String → Except Unit PyVal := fun s =>
  if s = "RESP" then
    .ok (.dict [("linkedin_post", .str "LP"), ("twitter_post", .str "TW"),
                ("key_insights", .list [.str "i1"]),
                ("article_title", .str "T1")])
  else .error ()

example : pyLen (.str "abc") = .ok 3 := rfl
example : pyLen .null = .error "object of type \x27NoneType\x27 has no len()" := rfl
example : stripFences "  ```json\n hi ``` " = "hi" := by decide
example :
    parse_response (fun _ => .error ()) "xy" =
      .ok (.dict [("linkedin_post", .str "xy"), ("twitter_post", .str "xy"),
                  ("key_insights", .list []),
                  ("article_title", .str "Untitled Article"),
                  ("article_author", .null), ("article_date", .null)]) := rfl

theorem ok_bind {α β : Type} (a : α) (f : α → Except String β) :
    (Except.ok a >>= f) = f a := rfl

theorem err_bind {α β : Type} (e : String) (f : α → Except String β) :
    ((Except.error e : Except String α) >>= f) = Except.error e := rfl

theorem bindOk {α β : Type} {x : Except String α} {f : α → Except String β}
    {b : β} (h : (x >>= f) = .ok b) : ∃ a, x = .ok a ∧ f a = .ok b := by
  cases x with
  | error e => rw [err_bind] at h; exact absurd h (by simp)
  | ok a => exact ⟨a, rfl, h⟩

theorem str_data_append (s t : String) : (s ++ t).data = s.data ++ t.data := by
  cases s; cases t; rfl

theorem prefixed_ne_empty (p e : String) (hp : p.data ≠ []) : p ++ e ≠ "" := by
  intro h
  have hd : (p ++ e).data = [] := by rw [h]
  rw [str_data_append] at hd
  exact hp (List.append_eq_nil.mp hd).1

theorem pyGetD_isOk {v : PyVal} (h : isDict v = true) (k : String) (d : PyVal) :
    ∃ w, pyGetD v k d = .ok w := by
  cases v <;> simp_all [isDict, pyGetD]

theorem pyGet1_isOk {v : PyVal} (h : isDict v = true) (k : String) :
    ∃ w, pyGet1 v k = .ok w := pyGetD_isOk h k .null

theorem add_audit_entry_trail (st : WorkflowState) (a s : String)
    (i o : PyVal) (stt : String) :
    (add_audit_entry st a s i o stt).audit_trail =
      st.audit_trail ++ [{ agent := a, step := s, status := stt,
                           input := i, output := o }] := rfl

/-- The posts dict returned by the agents is always a dict, on every path. -/
theorem postsFromApi_isDict (loads : String → Except Unit PyVal)
    (api : Except String String) : isDict (postsFromApi loads api) = true := by
  unfold postsFromApi
  cases api with
  | error e => rfl
  | ok response =>
      by_cases hr : response = ""
      · simp only [if_pos hr]; rfl
      · simp only [if_neg hr]
        cases hp : parse_response loads response with
        | error e => rfl
        | ok posts =>
            show isDict (match successPostsDict posts with
                         | .ok d => d
                         | .error e => errorPostsDict e) = true
            cases hs : successPostsDict posts with
            | error e => rfl
            | ok d =>
                show isDict d = true
                unfold successPostsDict at hs
                obtain ⟨lp, h1, hs⟩ := bindOk hs
                obtain ⟨tp, h2, hs⟩ := bindOk hs
                obtain ⟨ki, h3, hs⟩ := bindOk hs
                obtain ⟨ti, h4, hs⟩ := bindOk hs
                obtain ⟨au, h5, hs⟩ := bindOk hs
                obtain ⟨da, h6, hs⟩ := bindOk hs
                cases hs
                rfl

/-- Everything a successful `summTryBody` determines: the summaries come from
the given posts dict, and the intermediate reads it performed succeeded. -/
theorem summTryBody_ok {inp posts : PyVal} {t : SummTry}
    (h : summTryBody inp posts = .ok t) :
    t.input_data = inp ∧ t.posts = posts ∧
      pyGet1 posts "status" = .ok t.statusVal ∧
      ∃ kv n, pyGetD posts "key_insights" (.list []) = .ok kv ∧
        pyLen kv = .ok n := by
  unfold summTryBody at h
  obtain ⟨sv, h1, h⟩ := bindOk h
  obtain ⟨lv, h2, h⟩ := bindOk h
  obtain ⟨l1, h3, h⟩ := bindOk h
  obtain ⟨tv, h4, h⟩ := bindOk h
  obtain ⟨l2, h5, h⟩ := bindOk h
  obtain ⟨kv, h6, h⟩ := bindOk h
  obtain ⟨l3, h7, h⟩ := bindOk h
  obtain ⟨ti, h8, h⟩ := bindOk h
  obtain ⟨au, h9, h⟩ := bindOk h
  obtain ⟨da, h10, h⟩ := bindOk h
  obtain ⟨ev, h11, h⟩ := bindOk h
  cases h
  exact ⟨rfl, rfl, h1, kv, l3, h6, h7⟩

/-- A successful `summarizerTry` always carries the agent result as posts. -/
theorem summarizerTry_ok_posts {loads : String → Except Unit PyVal}
    {aS aD : Except String String} {st : WorkflowState} {t : SummTry}
    (h : summarizerTry loads aS aD st = .ok t) : isDict t.posts = true := by
  unfold summarizerTry at h
  cases hc : resolveChoice st.use_web_scraping st.url st.article_text <;>
    rw [hc] at h
  · rw [(summTryBody_ok h).2.1]; exact postsFromApi_isDict loads aS
  · rw [(summTryBody_ok h).2.1]; exact postsFromApi_isDict loads aD
  · exact absurd h (by simp)

/-- Frame conditions of the summarizer node: the other state fields are
untouched, the resulting posts data is a dict, and exactly one audit entry
is appended, with the fixed agent and step names. -/
theorem summarizer_node_frame (loads : String → Except Unit PyVal)
    (aS aD : Except String String) (st : WorkflowState) :
    (summarizer_node loads aS aD st).url = st.url ∧
    (summarizer_node loads aS aD st).article_text = st.article_text ∧
    (summarizer_node loads aS aD st).use_web_scraping = st.use_web_scraping ∧
    (summarizer_node loads aS aD st).images_data = st.images_data ∧
    (summarizer_node loads aS aD st).final_output = st.final_output ∧
    isDict (summarizer_node loads aS aD st).posts_data = true ∧
    ∃ e : AuditEntry,
      (summarizer_node loads aS aD st).audit_trail = st.audit_trail ++ [e] ∧
      e.agent = "SummarizationAgent" ∧ e.step = "generate_posts" := by
  unfold summarizer_node
  cases h : summarizerTry loads aS aD st with
  | error e => exact ⟨rfl, rfl, rfl, rfl, rfl, rfl, _, rfl, rfl, rfl⟩
  | ok t =>
      have hd := summarizerTry_ok_posts h
      obtain ⟨inp, posts, outd, sv, ev⟩ := t
      cases sv with
      | str s =>
          by_cases hs : s = "success"
          · simp only [if_pos hs]
            exact ⟨rfl, rfl, rfl, rfl, rfl, hd, _, rfl, rfl, rfl⟩
          · simp only [if_neg hs]
            exact ⟨rfl, rfl, rfl, rfl, rfl, hd, _, rfl, rfl, rfl⟩
      | null => exact ⟨rfl, rfl, rfl, rfl, rfl, hd, _, rfl, rfl, rfl⟩
      | bool b => exact ⟨rfl, rfl, rfl, rfl, rfl, hd, _, rfl, rfl, rfl⟩
      | num n => exact ⟨rfl, rfl, rfl, rfl, rfl, hd, _, rfl, rfl, rfl⟩
      | list xs => exact ⟨rfl, rfl, rfl, rfl, rfl, hd, _, rfl, rfl, rfl⟩
      | dict kvs => exact ⟨rfl, rfl, rfl, rfl, rfl, hd, _, rfl, rfl, rfl⟩
      | time => exact ⟨rfl, rfl, rfl, rfl, rfl, hd, _, rfl, rfl, rfl⟩

/-- The creative agent result is always a dict. -/
theorem generate_images_isDict (imgs : Except String (String × String)) :
    isDict (generate_images imgs) = true := by
  cases imgs with
  | ok p => cases p; rfl
  | error e => rfl

/-- A successful `creativeTry` carries the agent result as images data. -/
theorem creativeTry_ok_images {imgs : Except String (String × String)}
    {st : WorkflowState} {t : CreTry} (h : creativeTry imgs st = .ok t) :
    t.images = generate_images imgs := by
  simp only [creativeTry] at h
  obtain ⟨title, h1, h⟩ := bindOk h
  obtain ⟨au, h2, h⟩ := bindOk h
  obtain ⟨da, h3, h⟩ := bindOk h
  obtain ⟨kv, h4, h⟩ := bindOk h
  obtain ⟨k, h5, h⟩ := bindOk h
  obtain ⟨sv, h6, h⟩ := bindOk h
  obtain ⟨ev, h7, h⟩ := bindOk h
  cases sv with
  | str s =>
      by_cases hs : s = "success"
      · simp only [if_pos hs] at h
        obtain ⟨iv1, g1, h⟩ := bindOk h
        obtain ⟨sv1, g2, h⟩ := bindOk h
        obtain ⟨ivd, g3, h⟩ := bindOk h
        obtain ⟨svd, g4, h⟩ := bindOk h
        obtain ⟨il, g5, h⟩ := bindOk h
        obtain ⟨sl, g6, h⟩ := bindOk h
        cases h; rfl
      · simp only [if_neg hs] at h; cases h; rfl
  | null => cases h; rfl
  | bool b => cases h; rfl
  | num n => cases h; rfl
  | list xs => cases h; rfl
  | dict kvs => cases h; rfl
  | time => cases h; rfl

/-- The skip branch of the creative node: with the error flag set, the node
only records the fixed skip entry and replaces the images data. -/
theorem creative_node_skip (imgs : Except String (String × String))
    {st : WorkflowState} (h : st.error ≠ "") :
    creative_node imgs st =
      add_audit_entry
        { st with images_data := .dict [("status", .str "error"),
                                        ("error", .str "Previous step failed")] }
        "CreativeAgent" "generate_images"
        (.dict [("reason", .str "skipped_due_to_error")])
        (.dict [("error", .str "Previous step failed")]) "error" := by
  unfold creative_node
  rw [if_pos h]

/-- Frame conditions of the creative node: the other state fields are
untouched, the resulting images data is a dict, and exactly one audit entry
is appended, with the fixed agent and step names. -/
theorem creative_node_frame (imgs : Except String (String × String))
    (st : WorkflowState) :
    (creative_node imgs st).url = st.url ∧
    (creative_node imgs st).article_text = st.article_text ∧
    (creative_node imgs st).use_web_scraping = st.use_web_scraping ∧
    (creative_node imgs st).posts_data = st.posts_data ∧
    (creative_node imgs st).final_output = st.final_output ∧
    isDict (creative_node imgs st).images_data = true ∧
    ∃ e : AuditEntry,
      (creative_node imgs st).audit_trail = st.audit_trail ++ [e] ∧
      e.agent = "CreativeAgent" ∧ e.step = "generate_images" := by
  unfold creative_node
  by_cases he : st.error ≠ ""
  · rw [if_pos he]
    exact ⟨rfl, rfl, rfl, rfl, rfl, rfl, _, rfl, rfl, rfl⟩
  · rw [if_neg he]
    cases h : creativeTry imgs st with
    | error e => exact ⟨rfl, rfl, rfl, rfl, rfl, rfl, _, rfl, rfl, rfl⟩
    | ok t =>
        have hi : isDict t.images = true := by
          rw [creativeTry_ok_images h]; exact generate_images_isDict imgs
        obtain ⟨inp, images, ev, so⟩ := t
        cases so with
        | some outd => exact ⟨rfl, rfl, rfl, rfl, rfl, hi, _, rfl, rfl, rfl⟩
        | none => exact ⟨rfl, rfl, rfl, rfl, rfl, hi, _, rfl, rfl, rfl⟩

/-- The error branch of the finalize stage (coordinator.py lines 214-223). -/
theorem coordinator_node_err {st : WorkflowState} (h : st.error ≠ "") :
    coordinator_node st =
      .ok (add_audit_entry { st with final_output := some (errorEnvelope st) }
        "Coordinator" "compile_output"
        (.dict [("has_error", .bool true)])
        (.dict [("error", .str st.error)]) "error") := by
  unfold coordinator_node
  rw [if_pos h]

/-- The success branch of the finalize stage never raises on dict stage
results, appends exactly one entry and builds the success envelope from the
stage results. -/
theorem coordinatorSuccess_ok {st : WorkflowState}
    (hp : isDict st.posts_data = true) (hi : isDict st.images_data = true) :
    ∃ st', coordinatorSuccess st = .ok st' ∧
      (∃ e : AuditEntry, st'.audit_trail = st.audit_trail ++ [e] ∧
        e.agent = "Coordinator" ∧ e.step = "compile_output") ∧
      st'.url = st.url ∧
      ∃ ti au da lp tp ki inf soc,
        pyGetD st.posts_data "article_title" (.str "") = .ok ti ∧
        pyGetD st.posts_data "linkedin_post" (.str "") = .ok lp ∧
        pyGetD st.posts_data "twitter_post" (.str "") = .ok tp ∧
        pyGetD st.posts_data "key_insights" (.list []) = .ok ki ∧
        pyGet1 st.images_data "infographic_image" = .ok inf ∧
        pyGet1 st.images_data "social_image" = .ok soc ∧
        st'.final_output = some (successEnvelope st ti au da lp tp ki inf soc) := by
  obtain ⟨ps, e1⟩ := pyGet1_isOk hp "status"
  obtain ⟨ims, e2⟩ := pyGet1_isOk hi "status"
  obtain ⟨ti, e3⟩ := pyGetD_isOk hp "article_title" (.str "")
  obtain ⟨au, e4⟩ := pyGet1_isOk hp "article_author"
  obtain ⟨da, e5⟩ := pyGet1_isOk hp "article_date"
  obtain ⟨lp, e6⟩ := pyGetD_isOk hp "linkedin_post" (.str "")
  obtain ⟨tp, e7⟩ := pyGetD_isOk hp "twitter_post" (.str "")
  obtain ⟨ki, e8⟩ := pyGetD_isOk hp "key_insights" (.list [])
  obtain ⟨inf, e9⟩ := pyGet1_isOk hi "infographic_image"
  obtain ⟨soc, e10⟩ := pyGet1_isOk hi "social_image"
  have hrun : coordinatorSuccess st =
      .ok (add_audit_entry
        { st with final_output := some (successEnvelope st ti au da lp tp ki inf soc) }
        "Coordinator" "compile_output"
        (.dict [("posts_data_available", .bool (pyBool st.posts_data)),
                ("images_data_available", .bool (pyBool st.images_data)),
                ("posts_status", ps), ("images_status", ims)])
        (.dict [("status", .str "success"),
                ("output_keys", .list [.str "status", .str "url",
                    .str "article", .str "posts", .str "images",
                    .str "audit_trail"]),
                ("audit_trail_entries", .num st.audit_trail.length)])
        "success") := by
    simp only [coordinatorSuccess, e1, e2, e3, e4, e5, e6, e7, e8, e9, e10,
      ok_bind]
  exact ⟨_, hrun, ⟨_, rfl, rfl, rfl⟩, rfl,
    ti, au, da, lp, tp, ki, inf, soc, e3, e6, e7, e8, e9, e10, rfl⟩

/-- The finalize stage always succeeds on dict stage results and always
sets a final output, appending exactly one entry. -/
theorem coordinator_node_ok {st : WorkflowState}
    (hp : isDict st.posts_data = true) (hi : isDict st.images_data = true) :
    ∃ st', coordinator_node st = .ok st' ∧ st'.final_output.isSome ∧
      ∃ e : AuditEntry, st'.audit_trail = st.audit_trail ++ [e] ∧
        e.agent = "Coordinator" ∧ e.step = "compile_output" := by
  by_cases he : st.error ≠ ""
  · exact ⟨_, coordinator_node_err he, rfl, _, rfl, rfl, rfl⟩
  · obtain ⟨st', h1, ⟨e, h2, h3, h4⟩, hurl, ti, au, da, lp, tp, ki,
      inf, soc, g1, g2, g3, g4, g5, g6, hfo⟩ := coordinatorSuccess_ok hp hi
    refine ⟨st', ?_, ?_, e, h2, h3, h4⟩
    · unfold coordinator_node; rw [if_neg he]; exact h1
    · rw [hfo]; rfl

/-- Shape of a full graph run from any start state: the three nodes run in
order, the finalize stage succeeds, a final output is set, and exactly one
audit entry per stage is appended, in execution order. -/
theorem pipeline_shape (loads : String → Except Unit PyVal)
    (aS aD : Except String String) (imgs : Except String (String × String))
    (st : WorkflowState) :
    ∃ st3,
      coordinator_node (creative_node imgs (summarizer_node loads aS aD st)) =
        .ok st3 ∧
      st3.final_output.isSome ∧
      ∃ e1 e2 e3 : AuditEntry,
        st3.audit_trail = st.audit_trail ++ [e1, e2, e3] ∧
        e1.agent = "SummarizationAgent" ∧ e1.step = "generate_posts" ∧
        e2.agent = "CreativeAgent" ∧ e2.step = "generate_images" ∧
        e3.agent = "Coordinator" ∧ e3.step = "compile_output" := by
  obtain ⟨-, -, -, -, -, hpd, e1, ht1, ha1, hs1⟩ :=
    summarizer_node_frame loads aS aD st
  obtain ⟨-, -, -, hpost, -, hid, e2, ht2, ha2, hs2⟩ :=
    creative_node_frame imgs (summarizer_node loads aS aD st)
  have hpd2 : isDict (creative_node imgs
      (summarizer_node loads aS aD st)).posts_data = true := by
    rw [hpost]; exact hpd
  obtain ⟨st3, hc, hsome, e3, ht3, ha3, hs3⟩ := coordinator_node_ok hpd2 hid
  refine ⟨st3, hc, hsome, e1, e2, e3, ?_, ha1, hs1, ha2, hs2, ha3, hs3⟩
  rw [ht3, ht2, ht1]
  simp [List.append_assoc]

/-- Shape of a `process_url` run that passes input validation: the pipeline
runs to completion, the returned output is the final output set by the
finalize stage, and the returned trail is the pipeline trail extended with
the `workflow_complete` entry. -/
theorem process_url_run (loads : String → Except Unit PyVal)
    (aS aD : Except String String) (imgs : Except String (String × String))
    (url text : String) (usw : Bool)
    (h1 : ¬(url = "" ∧ text = "")) (h2 : ¬(usw ∧ url = "")) :
    ∃ st3 fo,
      coordinator_node (creative_node imgs (summarizer_node loads aS aD
        (startedState url text usw))) = .ok st3 ∧
      st3.final_output = some fo ∧
      process_url loads aS aD imgs url text usw = .ok
        { output := fo,
          audit_trail := st3.audit_trail ++
            [{ agent := "System", step := "workflow_complete",
               status := fo.status,
               input := .dict [("total_duration_ms", .time)],
               output := .dict [("status", .str fo.status),
                                ("total_audit_entries",
                                  .num st3.audit_trail.length)] }] } ∧
      ∃ e1 e2 e3 : AuditEntry,
        st3.audit_trail =
          (startedState url text usw).audit_trail ++ [e1, e2, e3] ∧
        e1.agent = "SummarizationAgent" ∧ e1.step = "generate_posts" ∧
        e2.agent = "CreativeAgent" ∧ e2.step = "generate_images" ∧
        e3.agent = "Coordinator" ∧ e3.step = "compile_output" := by
  obtain ⟨st3, hc, hsome, e1, e2, e3, ht, hfacts⟩ :=
    pipeline_shape loads aS aD imgs (startedState url text usw)
  obtain ⟨fo, hfo⟩ := Option.isSome_iff_exists.mp hsome
  refine ⟨st3, fo, hc, hfo, ?_, e1, e2, e3, ht, hfacts⟩
  unfold process_url
  rw [if_neg h1, if_neg h2]
  rw [hc, ok_bind, hfo]

theorem bind_pure_except {α : Type} (x : Except String α) :
    (x >>= fun a => Except.ok a) = x := by
  cases x <;> rfl

/-- With no usable content source the summarizer try block raises the
`ValueError` of coordinator.py line 100. -/
theorem summarizerTry_invalid {loads : String → Except Unit PyVal}
    {aS aD : Except String String} {st : WorkflowState}
    (h : resolveChoice st.use_web_scraping st.url st.article_text = .invalid) :
    summarizerTry loads aS aD st =
      .error "Either URL with web scraping enabled or article_text must be provided" := by
  unfold summarizerTry
  rw [h]

/-- The summarizer node output does not depend on the transport oracles when
no content source resolves. -/
theorem summarizer_node_invalid_oracle_free
    (loads loads2 : String → Except Unit PyVal)
    (aS aS2 aD aD2 : Except String String) {st : WorkflowState}
    (h : resolveChoice st.use_web_scraping st.url st.article_text = .invalid) :
    summarizer_node loads aS aD st = summarizer_node loads2 aS2 aD2 st := by
  unfold summarizer_node
  rw [@summarizerTry_invalid loads aS aD st h,
      @summarizerTry_invalid loads2 aS2 aD2 st h]

/-- The creative node output does not depend on the image oracle when a
previous stage set the error flag. -/
theorem creative_node_oracle_free (imgs imgs2 : Except String (String × String))
    {st : WorkflowState} (h : st.error ≠ "") :
    creative_node imgs st = creative_node imgs2 st := by
  rw [creative_node_skip imgs h, creative_node_skip imgs2 h]

/-- Claim C1: for every run that passes input validation, the audit trail of
the returned final output contains exactly 5 entries, in order:
workflow_start, the text-generation stage entry, the image-generation stage
entry, the finalize entry and workflow_complete, regardless of success or
failure of any stage (skipped stages still contribute exactly one entry). -/
theorem audit_trail_has_five_entries (loads : String → Except Unit PyVal)
    (aS aD : Except String String) (imgs : Except String (String × String))
    (url text : String) (usw : Bool)
    (h1 : ¬(url = "" ∧ text = "")) (h2 : ¬(usw ∧ url = "")) :
    ∃ r, process_url loads aS aD imgs url text usw = .ok r ∧
      r.audit_trail.map AuditEntry.step =
        ["workflow_start", "generate_posts", "generate_images",
         "compile_output", "workflow_complete"] ∧
      r.audit_trail.length = 5 := by
  obtain ⟨st3, fo, hc, hfo, hrun, e1, e2, e3, ht, ha1, hs1, ha2, hs2, ha3, hs3⟩ :=
    process_url_run loads aS aD imgs url text usw h1 h2
  refine ⟨_, hrun, ?_, ?_⟩
  · show ((st3.audit_trail ++ _).map AuditEntry.step) = _
    rw [ht]
    simp [startedState, initialState, add_audit_entry, hs1, hs2, hs3]
  · show (st3.audit_trail ++ _).length = 5
    rw [ht]
    simp [startedState, initialState, add_audit_entry]

theorem audit_trail_has_five_entries_witness :
    (¬("" = "" ∧ "t" = "")) ∧ (¬(false = true ∧ "" = "")) ∧
    ∃ r, process_url (fun _ => .error ()) (.error "a") (.error "b")
        (.error "c") "" "t" false = .ok r ∧
      r.audit_trail.map AuditEntry.step =
        ["workflow_start", "generate_posts", "generate_images",
         "compile_output", "workflow_complete"] ∧
      r.audit_trail.length = 5 :=
  ⟨by simp, by simp,
   audit_trail_has_five_entries (fun _ => .error ()) (.error "a") (.error "b")
     (.error "c") "" "t" false (by simp) (by simp)⟩

/-- Claim C3: the finalize stage never fails on a reachable state (stage
results are dicts there): it always returns a state carrying a final
output, whose status is error exactly when the state error flag is set at
that point; on failure the output is the error envelope, with no posts or
images payloads. -/
theorem finalize_total_status_iff (st : WorkflowState)
    (hp : isDict st.posts_data = true) (hi : isDict st.images_data = true) :
    ∃ st' fo, coordinator_node st = .ok st' ∧ st'.final_output = some fo ∧
      (fo.status = "error" ↔ st.error ≠ "") ∧
      (st.error ≠ "" → fo = errorEnvelope st) ∧
      (st.error = "" → fo.status = "success" ∧ fo.error = none) := by
  by_cases he : st.error ≠ ""
  · refine ⟨_, errorEnvelope st, coordinator_node_err he, rfl, ?_,
      fun _ => rfl, fun hc => absurd hc he⟩
    exact ⟨fun _ => he, fun _ => rfl⟩
  · have he2 : st.error = "" := not_ne_iff.mp he
    obtain ⟨st', hok, -, -, ti, au, da, lp, tp, ki, inf, soc,
      g1, g2, g3, g4, g5, g6, hfo⟩ := coordinatorSuccess_ok hp hi
    refine ⟨st', successEnvelope st ti au da lp tp ki inf soc, ?_, hfo, ?_,
      fun hc => absurd hc he, fun _ => ⟨rfl, rfl⟩⟩
    · unfold coordinator_node; rw [if_neg he]; exact hok
    · exact ⟨fun hstat => absurd hstat (by simp [successEnvelope]),
        fun hne => absurd hne he⟩

theorem finalize_total_status_iff_witness :
    (isDict (initialState "" "x" false).posts_data = true) ∧
    ∃ st' fo, coordinator_node (initialState "" "x" false) = .ok st' ∧
      st'.final_output = some fo ∧
      (fo.status = "error" ↔ (initialState "" "x" false).error ≠ "") ∧
      ((initialState "" "x" false).error ≠ "" →
        fo = errorEnvelope (initialState "" "x" false)) ∧
      ((initialState "" "x" false).error = "" →
        fo.status = "success" ∧ fo.error = none) :=
  ⟨rfl, finalize_total_status_iff (initialState "" "x" false) rfl rfl⟩

/-- Claim C6: a request with no content source, or with scraping requested
but no url, is rejected before any stage runs: the coordinator returns an
error result with an empty audit trail, the outcome does not depend on any
stage oracle, and the HTTP layer rejects the equivalent request with a 400
before invoking the workflow. -/
theorem invalid_input_rejected (loads : String → Except Unit PyVal)
    (aS aD : Except String String) (imgs : Except String (String × String))
    (url text : String) (usw : Bool)
    (h : (url = "" ∧ text = "") ∨ (usw ∧ url = "")) :
    ∃ r, process_url loads aS aD imgs url text usw = .ok r ∧
      r.output.status = "error" ∧ r.audit_trail = [] ∧
      (∀ loads2 aS2 aD2 imgs2,
        process_url loads2 aS2 aD2 imgs2 url text usw =
          process_url loads aS aD imgs url text usw) ∧
      (∀ req : ProcessRequest,
        (req.url.getD "" = "" ∧ req.article_text.getD "" = "") ∨
          (req.use_web_scraping ∧ req.url.getD "" = "") →
        ∃ d, appProcess loads aS aD imgs req = .err 400 d) := by
  have happ : ∀ req : ProcessRequest,
      (req.url.getD "" = "" ∧ req.article_text.getD "" = "") ∨
        (req.use_web_scraping ∧ req.url.getD "" = "") →
      ∃ d, appProcess loads aS aD imgs req = .err 400 d := by
    intro req hr
    rcases hr with hra | hrb
    · exact ⟨_, by unfold appProcess; rw [if_pos hra]⟩
    · by_cases hra : req.url.getD "" = "" ∧ req.article_text.getD "" = ""
      · exact ⟨_, by unfold appProcess; rw [if_pos hra]⟩
      · exact ⟨_, by unfold appProcess; rw [if_neg hra, if_pos hrb]⟩
  rcases h with h1 | h2
  · refine ⟨_, by unfold process_url; rw [if_pos h1], rfl, rfl, ?_, happ⟩
    intro l2 a2 b2 i2
    unfold process_url
    simp only [if_pos h1]
  · by_cases h1 : url = "" ∧ text = ""
    · refine ⟨_, by unfold process_url; rw [if_pos h1], rfl, rfl, ?_, happ⟩
      intro l2 a2 b2 i2
      unfold process_url
      simp only [if_pos h1]
    · refine ⟨_, by unfold process_url; rw [if_neg h1, if_pos h2], rfl, rfl,
        ?_, happ⟩
      intro l2 a2 b2 i2
      unfold process_url
      simp only [if_neg h1, if_pos h2]

theorem invalid_input_rejected_witness :
    (("" = "" ∧ "" = "") ∨ (false = true ∧ "" = "")) ∧
    ∃ r, process_url (fun _ => .error ()) (.ok "a") (.ok "b")
        (.ok ("c", "d")) "" "" false = .ok r ∧
      r.output.status = "error" ∧ r.audit_trail = [] ∧
      (∀ loads2 aS2 aD2 imgs2,
        process_url loads2 aS2 aD2 imgs2 "" "" false =
          process_url (fun _ => .error ()) (.ok "a") (.ok "b")
            (.ok ("c", "d")) "" "" false) ∧
      (∀ req : ProcessRequest,
        (req.url.getD "" = "" ∧ req.article_text.getD "" = "") ∨
          (req.use_web_scraping ∧ req.url.getD "" = "") →
        ∃ d, appProcess (fun _ => .error ()) (.ok "a") (.ok "b")
          (.ok ("c", "d")) req = .err 400 d) :=
  ⟨Or.inl ⟨rfl, rfl⟩,
   invalid_input_rejected (fun _ => .error ()) (.ok "a") (.ok "b")
     (.ok ("c", "d")) "" "" false (Or.inl ⟨rfl, rfl⟩)⟩

/-- Claim C7: the graph of `_build_workflow` is a fixed linear chain: every
run executes summarizer, creative and coordinator in this order (resolution
happens inside the summarizer node before generation), `END` is the only
terminal point, running the chain is exactly the sequential composition of
the three node functions, and every validated or rejected request reaches a
result: failure is data in the error field, never a different terminal. -/
theorem pipeline_fixed_order_single_terminal :
    pathFrom 5 entryPoint = ["summarizer", "creative", "coordinator"] ∧
    nextAfter "END" = none ∧
    (∀ (loads : String → Except Unit PyVal) (aS aD : Except String String)
      (imgs : Except String (String × String)) (st : WorkflowState),
      runNodes loads aS aD imgs (pathFrom 5 entryPoint) st =
        coordinator_node (creative_node imgs (summarizer_node loads aS aD st))) ∧
    (∀ (loads : String → Except Unit PyVal) (aS aD : Except String String)
      (imgs : Except String (String × String)) (url text : String)
      (usw : Bool),
      ∃ r, process_url loads aS aD imgs url text usw = .ok r) := by
  refine ⟨rfl, rfl, ?_, ?_⟩
  · intro loads aS aD imgs st
    show (coordinator_node (creative_node imgs (summarizer_node loads aS aD st))
        >>= fun a => Except.ok a) =
      coordinator_node (creative_node imgs (summarizer_node loads aS aD st))
    exact bind_pure_except _
  · intro loads aS aD imgs url text usw
    by_cases hv1 : url = "" ∧ text = ""
    · exact ⟨_, by unfold process_url; rw [if_pos hv1]⟩
    · by_cases hv2 : usw ∧ url = ""
      · exact ⟨_, by unfold process_url; rw [if_neg hv1, if_pos hv2]⟩
      · obtain ⟨st3, fo, hc, hfo, hrun, -⟩ :=
          process_url_run loads aS aD imgs url text usw hv1 hv2
        exact ⟨_, hrun⟩

/-- Claim C9: content-source resolution is deterministic: with article text
present and no url, the resolver picks the direct-text path whatever the
scraping flag is, on every run; and with no url the summarizer node never
consults the scraping transport at all. -/
theorem direct_text_resolution_deterministic :
    (∀ (usw usw2 : Bool) (text : String), text ≠ "" →
      resolveChoice usw "" text = .directText ∧
      resolveChoice usw2 "" text = resolveChoice usw "" text) ∧
    (∀ (loads : String → Except Unit PyVal) (aS aS2 aD : Except String String)
      (st : WorkflowState), st.url = "" →
      summarizer_node loads aS aD st = summarizer_node loads aS2 aD st) := by
  constructor
  · intro usw usw2 text ht
    constructor <;> simp [resolveChoice, ht]
  · intro loads aS aS2 aD st hurl
    unfold summarizer_node
    have e1 : summarizerTry loads aS aD st = summarizerTry loads aS2 aD st := by
      unfold summarizerTry
      rw [hurl]
      by_cases htext : st.article_text = ""
      · rw [show resolveChoice st.use_web_scraping "" st.article_text = .invalid
          from by simp [resolveChoice, htext]]
      · rw [show resolveChoice st.use_web_scraping "" st.article_text = .directText
          from by simp [resolveChoice, htext]]
    rw [e1]

theorem direct_text_resolution_deterministic_witness :
    ("x" ≠ "") ∧
    (resolveChoice true "" "x" = .directText ∧
      resolveChoice false "" "x" = resolveChoice true "" "x") ∧
    ((initialState "" "x" false).url = "") ∧
    summarizer_node (fun _ => .error ()) (.ok "A") (.error "boom")
        (initialState "" "x" false) =
      summarizer_node (fun _ => .error ()) (.ok "B") (.error "boom")
        (initialState "" "x" false) :=
  ⟨by decide, direct_text_resolution_deterministic.1 true false "x" (by decide),
   rfl, direct_text_resolution_deterministic.2 (fun _ => .error ())
     (.ok "A") (.ok "B") (.error "boom") (initialState "" "x" false) rfl⟩

/-- Claim C10: a request with a non-empty url, scraping disabled and empty
article text passes input validation, the workflow runs, and the
text-generation stage itself fails with the internal `ValueError` converted
to a stage error: the final result has status error with the summarizer
error message and a full five-entry audit trail (not the pre-stage rejection
with an empty trail), and no oracle is ever consulted. -/
theorem url_without_scraping_runs_and_fails
    (loads : String → Except Unit PyVal) (aS aD : Except String String)
    (imgs : Except String (String × String)) (url : String) (h : url ≠ "") :
    ∃ r, process_url loads aS aD imgs url "" false = .ok r ∧
      r.output.status = "error" ∧
      r.output.error = some
        "Summarizer error: Either URL with web scraping enabled or article_text must be provided" ∧
      r.audit_trail.length = 5 ∧
      (∀ (loads2 : String → Except Unit PyVal)
        (aS2 aD2 : Except String String)
        (imgs2 : Except String (String × String)),
        process_url loads2 aS2 aD2 imgs2 url "" false =
          process_url loads aS aD imgs url "" false) := by
  have h1 : ¬(url = "" ∧ ("" : String) = "") := fun hc => h hc.1
  have h2 : ¬(false = true ∧ url = "") := by simp
  have hrc : resolveChoice (startedState url "" false).use_web_scraping
      (startedState url "" false).url
      (startedState url "" false).article_text = .invalid := by
    show resolveChoice false url "" = .invalid
    simp [resolveChoice]
  have hAerr : (summarizer_node loads aS aD (startedState url "" false)).error =
      "Summarizer error: " ++
        "Either URL with web scraping enabled or article_text must be provided" := by
    unfold summarizer_node
    rw [summarizerTry_invalid hrc]
    rfl
  have hAne : (summarizer_node loads aS aD (startedState url "" false)).error ≠ "" := by
    rw [hAerr]
    exact prefixed_ne_empty _ _ (by decide)
  have hBerr : (creative_node imgs
      (summarizer_node loads aS aD (startedState url "" false))).error =
      (summarizer_node loads aS aD (startedState url "" false)).error := by
    rw [creative_node_skip imgs hAne]
    rfl
  have hBne : (creative_node imgs
      (summarizer_node loads aS aD (startedState url "" false))).error ≠ "" := by
    rw [hBerr]; exact hAne
  have hcoord := coordinator_node_err hBne
  obtain ⟨st3, fo, hc, hfo, hrun, e1, e2, e3, ht, -⟩ :=
    process_url_run loads aS aD imgs url "" false h1 h2
  rw [hcoord] at hc
  injection hc with hst3
  subst hst3
  rw [show (add_audit_entry
      { creative_node imgs (summarizer_node loads aS aD (startedState url "" false)) with
        final_output := some (errorEnvelope (creative_node imgs
          (summarizer_node loads aS aD (startedState url "" false)))) }
      "Coordinator" "compile_output"
      (.dict [("has_error", .bool true)])
      (.dict [("error", .str (creative_node imgs
        (summarizer_node loads aS aD (startedState url "" false))).error)])
      "error").final_output = some (errorEnvelope (creative_node imgs
        (summarizer_node loads aS aD (startedState url "" false)))) from rfl] at hfo
  injection hfo with hfo2
  subst hfo2
  refine ⟨_, hrun, rfl, ?_, ?_, ?_⟩
  · show some (creative_node imgs
      (summarizer_node loads aS aD (startedState url "" false))).error = _
    rw [hBerr, hAerr]
    rfl
  · obtain ⟨-, -, -, -, -, -, eS, htS, -, -⟩ :=
      summarizer_node_frame loads aS aD (startedState url "" false)
    obtain ⟨-, -, -, -, -, -, eC, htC, -, -⟩ :=
      creative_node_frame imgs (summarizer_node loads aS aD (startedState url "" false))
    simp only [add_audit_entry, htC, htS]
    simp [startedState, initialState, add_audit_entry]
  · intro loads2 aS2 aD2 imgs2
    unfold process_url
    simp only [if_neg h1, if_neg h2]
    rw [summarizer_node_invalid_oracle_free loads2 loads aS2 aS aD2 aD hrc,
        creative_node_oracle_free imgs2 imgs hAne]

theorem url_without_scraping_runs_and_fails_witness :
    ("http://u" ≠ "") ∧
    ∃ r, process_url (fun _ => .error ()) (.ok "a") (.ok "b")
        (.ok ("c", "d")) "http://u" "" false = .ok r ∧
      r.output.status = "error" ∧
      r.output.error = some
        "Summarizer error: Either URL with web scraping enabled or article_text must be provided" ∧
      r.audit_trail.length = 5 ∧
      (∀ (loads2 : String → Except Unit PyVal)
        (aS2 aD2 : Except String String)
        (imgs2 : Except String (String × String)),
        process_url loads2 aS2 aD2 imgs2 "http://u" "" false =
          process_url (fun _ => .error ()) (.ok "a") (.ok "b")
            (.ok ("c", "d")) "http://u" "" false) :=
  ⟨by decide,
   url_without_scraping_runs_and_fails (fun _ => .error ()) (.ok "a")
     (.ok "b") (.ok ("c", "d")) "http://u" (by decide)⟩

/-- Claim C2: when the text-generation stage set the error flag, the
image-generation stage does no work: its output is independent of the image
oracle (no provider call), it records exactly one audit entry with error
status and the skip-reason input summary, and the final output of the run
carries no image payload at all (the images key is absent, as is posts). -/
theorem skipped_image_stage_audit_and_output
    (loads : String → Except Unit PyVal) (aS aD : Except String String)
    (imgs : Except String (String × String)) (url text : String) (usw : Bool)
    (h1 : ¬(url = "" ∧ text = "")) (h2 : ¬(usw ∧ url = ""))
    (herr : (summarizer_node loads aS aD (startedState url text usw)).error ≠ "") :
    creative_node imgs (summarizer_node loads aS aD (startedState url text usw)) =
      add_audit_entry
        { summarizer_node loads aS aD (startedState url text usw) with
          images_data := .dict [("status", .str "error"),
                                ("error", .str "Previous step failed")] }
        "CreativeAgent" "generate_images"
        (.dict [("reason", .str "skipped_due_to_error")])
        (.dict [("error", .str "Previous step failed")]) "error" ∧
    (∀ imgs2 : Except String (String × String),
      creative_node imgs2 (summarizer_node loads aS aD (startedState url text usw)) =
        creative_node imgs (summarizer_node loads aS aD (startedState url text usw))) ∧
    ∃ r, process_url loads aS aD imgs url text usw = .ok r ∧
      r.output.status = "error" ∧ r.output.images = none ∧
      r.output.posts = none := by
  refine ⟨creative_node_skip imgs herr,
    fun imgs2 => creative_node_oracle_free imgs2 imgs herr, ?_⟩
  have hBerr : (creative_node imgs
      (summarizer_node loads aS aD (startedState url text usw))).error =
      (summarizer_node loads aS aD (startedState url text usw)).error := by
    rw [creative_node_skip imgs herr]
    rfl
  have hBne : (creative_node imgs
      (summarizer_node loads aS aD (startedState url text usw))).error ≠ "" := by
    rw [hBerr]; exact herr
  have hcoord := coordinator_node_err hBne
  obtain ⟨st3, fo, hc, hfo, hrun, -⟩ :=
    process_url_run loads aS aD imgs url text usw h1 h2
  rw [hcoord] at hc
  injection hc with hst3
  subst hst3
  rw [show (add_audit_entry
      { creative_node imgs (summarizer_node loads aS aD (startedState url text usw)) with
        final_output := some (errorEnvelope (creative_node imgs
          (summarizer_node loads aS aD (startedState url text usw)))) }
      "Coordinator" "compile_output"
      (.dict [("has_error", .bool true)])
      (.dict [("error", .str (creative_node imgs
        (summarizer_node loads aS aD (startedState url text usw))).error)])
      "error").final_output = some (errorEnvelope (creative_node imgs
        (summarizer_node loads aS aD (startedState url text usw)))) from rfl] at hfo
  injection hfo with hfo2
  subst hfo2
  exact ⟨_, hrun, rfl, rfl, rfl⟩

theorem skipped_image_stage_audit_and_output_witness :
    ((summarizer_node (fun _ => .error ()) (.ok "a") (.error "boom")
      (startedState "" "t" false)).error ≠ "") ∧
    (creative_node (.ok ("I1", "I2")) (summarizer_node (fun _ => .error ())
        (.ok "a") (.error "boom") (startedState "" "t" false)) =
      add_audit_entry
        { summarizer_node (fun _ => .error ()) (.ok "a") (.error "boom")
            (startedState "" "t" false) with
          images_data := .dict [("status", .str "error"),
                                ("error", .str "Previous step failed")] }
        "CreativeAgent" "generate_images"
        (.dict [("reason", .str "skipped_due_to_error")])
        (.dict [("error", .str "Previous step failed")]) "error" ∧
    (∀ imgs2 : Except String (String × String),
      creative_node imgs2 (summarizer_node (fun _ => .error ()) (.ok "a")
          (.error "boom") (startedState "" "t" false)) =
        creative_node (.ok ("I1", "I2")) (summarizer_node (fun _ => .error ())
          (.ok "a") (.error "boom") (startedState "" "t" false))) ∧
    ∃ r, process_url (fun _ => .error ()) (.ok "a") (.error "boom")
        (.ok ("I1", "I2")) "" "t" false = .ok r ∧
      r.output.status = "error" ∧ r.output.images = none ∧
      r.output.posts = none) :=
  ⟨by decide,
   skipped_image_stage_audit_and_output (fun _ => .error ()) (.ok "a")
     (.error "boom") (.ok ("I1", "I2")) "" "t" false (by simp) (by simp)
     (by decide)⟩

/-- Counterexample to claim C5 as stated: the provider response consisting
of an empty JSON array decodes as JSON but is not the expected structured
object, yet the stage does not return the degraded success result: the
`.get` call on the parsed list raises an AttributeError that the parse
function does not catch, and the stage surfaces it as
postsResult.status=error with null post bodies. -/
theorem parse_wrong_shape_not_degraded :
    pvLookup (generate_posts_from_text loadsEmptyList (.ok "[]")) "status" =
      some (.str "error") ∧
    pvLookup (generate_posts_from_text loadsEmptyList (.ok "[]"))
      "twitter_post" = some .null :=
  ⟨rfl, rfl⟩

/-- Claim C5 (amended): for every non-empty provider response whose body
fails JSON decoding, the stage returns the degraded result with
status=success, the cleaned truncated text as both post bodies, empty
insights and the placeholder title, and never a stage error; responses that
decode to JSON of the wrong shape instead surface as a stage error (see the
counterexample). -/
theorem parse_failure_degraded_success
    (loads : String → Except Unit PyVal) (resp : String) (hne : resp ≠ "")
    (hd : loads (stripFences resp) = .error ()) :
    generate_posts_from_text loads (.ok resp) =
      .dict [("status", .str "success"),
             ("linkedin_post", .str (pyTake (stripFences resp) 500)),
             ("twitter_post", .str (pyTake (stripFences resp) 280)),
             ("key_insights", .list []),
             ("article_title", .str "Untitled Article"),
             ("article_author", .null),
             ("article_date", .null)] := by
  have hp : parse_response loads resp =
      .ok (.dict [("linkedin_post", .str (pyTake (stripFences resp) 500)),
                  ("twitter_post", .str (pyTake (stripFences resp) 280)),
                  ("key_insights", .list []),
                  ("article_title", .str "Untitled Article"),
                  ("article_author", .null),
                  ("article_date", .null)]) := by
    simp only [parse_response]
    rw [hd]
  unfold generate_posts_from_text postsFromApi
  simp only [hp, if_neg hne]
  rfl

theorem parse_failure_degraded_success_witness :
    ("nonsense" ≠ "") ∧ ((fun _ => (.error () : Except Unit PyVal))
      (stripFences "nonsense") = .error ()) ∧
    generate_posts_from_text (fun _ => .error ()) (.ok "nonsense") =
      .dict [("status", .str "success"),
             ("linkedin_post", .str (pyTake (stripFences "nonsense") 500)),
             ("twitter_post", .str (pyTake (stripFences "nonsense") 280)),
             ("key_insights", .list []),
             ("article_title", .str "Untitled Article"),
             ("article_author", .null),
             ("article_date", .null)] :=
  ⟨by decide, rfl,
   parse_failure_degraded_success (fun _ => .error ()) "nonsense"
     (by decide) rfl⟩

theorem pyGetD_ok_dict {v : PyVal} {k : String} {d w : PyVal}
    (h : pyGetD v k d = .ok w) :
    ∃ kvs, v = .dict kvs ∧ w = (kvs.lookup k).getD d := by
  cases v <;> simp [pyGetD] at h
  exact ⟨_, rfl, h.symm⟩

theorem pvLookup_some {v : PyVal} {k : String} {w : PyVal}
    (h : pvLookup v k = some w) :
    ∃ kvs, v = .dict kvs ∧ kvs.lookup k = some w := by
  cases v <;> simp [pvLookup] at h
  exact ⟨_, rfl, h⟩

/-- Everything a successful `successPostsDict` determines. -/
theorem successPostsDict_ok {posts d : PyVal} (h : successPostsDict posts = .ok d) :
    ∃ lp tp ki ti au da,
      pyGetD posts "linkedin_post" (.str "") = .ok lp ∧
      pyGetD posts "twitter_post" (.str "") = .ok tp ∧
      pyGetD posts "key_insights" (.list []) = .ok ki ∧
      pyGetD posts "article_title" (.str "") = .ok ti ∧
      d = .dict [("status", .str "success"),
                 ("linkedin_post", lp), ("twitter_post", tp),
                 ("key_insights", ki), ("article_title", ti),
                 ("article_author", au), ("article_date", da)] := by
  unfold successPostsDict at h
  obtain ⟨lp, h1, h⟩ := bindOk h
  obtain ⟨tp, h2, h⟩ := bindOk h
  obtain ⟨ki, h3, h⟩ := bindOk h
  obtain ⟨ti, h4, h⟩ := bindOk h
  obtain ⟨au, h5, h⟩ := bindOk h
  obtain ⟨da, h6, h⟩ := bindOk h
  cases h
  exact ⟨lp, tp, ki, ti, au, da, h1, h2, h3, h4, rfl⟩

/-- Any string-valued twitter post in a parse result respects the 280 cap:
either it came from the fallback truncation to 280, or from the parsed
value, truncated to 277 plus the 3-character marker when over the cap. -/
theorem parse_response_twitter_bound {loads : String → Except Unit PyVal}
    {resp : String} {posts : PyVal}
    (h : parse_response loads resp = .ok posts) :
    ∀ t : String, pvLookup posts "twitter_post" = some (.str t) →
      t.length ≤ 280 := by
  simp only [parse_response] at h
  cases hl : loads (stripFences resp) with
  | error u =>
      rw [hl] at h
      cases h
      intro t ht
      rw [show pvLookup (PyVal.dict
        [("linkedin_post", .str (pyTake (stripFences resp) 500)),
         ("twitter_post", .str (pyTake (stripFences resp) 280)),
         ("key_insights", .list []),
         ("article_title", .str "Untitled Article"),
         ("article_author", .null), ("article_date", .null)]) "twitter_post" =
        some (.str (pyTake (stripFences resp) 280)) from rfl] at ht
      injection ht with ht
      injection ht with ht
      subst ht
      show (List.take 280 (stripFences resp).data).length ≤ 280
      rw [List.length_take]
      exact min_le_left _ _
  | ok data =>
      rw [hl] at h
      obtain ⟨lv, b1, h⟩ := bindOk h
      obtain ⟨tv0, b2, h⟩ := bindOk h
      obtain ⟨n, b3, h⟩ := bindOk h
      by_cases hn : 280 < n
      · rw [if_pos hn] at h
        obtain ⟨sl, b4, h⟩ := bindOk h
        obtain ⟨y, b5, h⟩ := bindOk h
        obtain ⟨kv, b6, h⟩ := bindOk h
        obtain ⟨ti, b7, h⟩ := bindOk h
        obtain ⟨au, b8, h⟩ := bindOk h
        obtain ⟨da, b9, h⟩ := bindOk h
        cases h
        intro t ht
        rw [show pvLookup (PyVal.dict
          [("linkedin_post", lv), ("twitter_post", y), ("key_insights", kv),
           ("article_title", ti), ("article_author", au),
           ("article_date", da)]) "twitter_post" = some y from rfl] at ht
        injection ht with ht
        subst ht
        cases sl with
        | str x =>
            simp only [pyAdd] at b5
            injection b5 with b5
            injection b5 with b5
            subst b5
            show (x.data ++ "...".data).length ≤ 280
            rw [List.length_append]
            have hx : x.data.length ≤ 277 := by
              cases tv0 with
              | str s =>
                  simp only [pySliceTake] at b4
                  injection b4 with b4
                  injection b4 with b4
                  rw [← b4]
                  show (List.take 277 s.data).length ≤ 277
                  rw [List.length_take]
                  exact min_le_left _ _
              | null => simp [pySliceTake] at b4
              | bool b => simp [pySliceTake] at b4
              | num m => simp [pySliceTake] at b4
              | list xs => simp [pySliceTake] at b4
              | dict kvs2 => simp [pySliceTake] at b4
              | time => simp [pySliceTake] at b4
            have h3 : ("...".data).length = 3 := rfl
            omega
        | null => simp [pyAdd] at b5
        | bool b => simp [pyAdd] at b5
        | num m => simp [pyAdd] at b5
        | list xs => simp [pyAdd] at b5
        | dict kvs2 => simp [pyAdd] at b5
        | time => simp [pyAdd] at b5
      · rw [if_neg hn] at h
        obtain ⟨y, b4, h⟩ := bindOk h
        obtain ⟨kv, b6, h⟩ := bindOk h
        obtain ⟨ti, b7, h⟩ := bindOk h
        obtain ⟨au, b8, h⟩ := bindOk h
        obtain ⟨da, b9, h⟩ := bindOk h
        cases h
        intro t ht
        rw [show pvLookup (PyVal.dict
          [("linkedin_post", lv), ("twitter_post", y), ("key_insights", kv),
           ("article_title", ti), ("article_author", au),
           ("article_date", da)]) "twitter_post" = some y from rfl] at ht
        injection ht with ht
        subst ht
        injection b4 with b4
        subst b4
        simp only [pyLen] at b3
        injection b3 with b3
        omega

/-- When the provider JSON decodes to a dict whose twitter post is a string
over the cap, the parse result carries exactly the 277-character prefix
plus the three-dot marker. -/
theorem parse_response_truncates {loads : String → Except Unit PyVal}
    {resp : String} {kvs : List (String × PyVal)} {tw : String}
    (hd : loads (stripFences resp) = .ok (.dict kvs))
    (hlk : kvs.lookup "twitter_post" = some (.str tw))
    (htw : 280 < tw.length) :
    parse_response loads resp =
      .ok (.dict [("linkedin_post", (kvs.lookup "linkedin_post").getD (.str "")),
                  ("twitter_post",
                    .str (String.mk (tw.data.take 277 ++ "...".data))),
                  ("key_insights", (kvs.lookup "key_insights").getD (.list [])),
                  ("article_title",
                    (kvs.lookup "article_title").getD (.str "Untitled Article")),
                  ("article_author", (kvs.lookup "article_author").getD .null),
                  ("article_date", (kvs.lookup "article_date").getD .null)]) := by
  simp only [parse_response]
  rw [hd]
  simp only [pyGetD, pyGet1, ok_bind, hlk, Option.getD_some, pyLen,
    if_pos htw, pySliceTake, pyAdd]

/-- Claim C4: the short-form post respects the 280-character hard cap.
First conjunct: whenever the text-generation stage result carries a string
twitter post, its length is at most 280, for every provider response,
including the degraded fallback path.  Second conjunct: when the provider
returned a structured object whose twitter post is a string over the cap,
the stage result carries the 277-character prefix plus the 3-character
marker. -/
theorem twitter_post_hard_cap :
    (∀ (loads : String → Except Unit PyVal) (api : Except String String)
      (t : String),
      pvLookup (generate_posts_from_text loads api) "twitter_post" =
        some (.str t) → t.length ≤ 280) ∧
    (∀ (loads : String → Except Unit PyVal) (resp : String)
      (kvs : List (String × PyVal)) (tw : String), resp ≠ "" →
      loads (stripFences resp) = .ok (.dict kvs) →
      kvs.lookup "twitter_post" = some (.str tw) → 280 < tw.length →
      pvLookup (generate_posts_from_text loads (.ok resp)) "twitter_post" =
        some (.str (String.mk (tw.data.take 277 ++ "...".data)))) := by
  constructor
  · intro loads api t ht
    unfold generate_posts_from_text postsFromApi at ht
    cases api with
    | error e =>
        rw [show pvLookup (errorPostsDict e) "twitter_post" = some .null
          from rfl] at ht
        injection ht with ht
        exact absurd ht (by simp)
    | ok resp =>
        replace ht : pvLookup
            (if resp = "" then errorPostsDict "Empty response from API"
             else match parse_response loads resp with
                  | .error e => errorPostsDict e
                  | .ok posts =>
                      match successPostsDict posts with
                      | .ok d => d
                      | .error e => errorPostsDict e) "twitter_post" =
            some (.str t) := ht
        by_cases hr : resp = ""
        · rw [if_pos hr] at ht
          rw [show pvLookup (errorPostsDict "Empty response from API")
            "twitter_post" = some .null from rfl] at ht
          injection ht with ht
          exact absurd ht (by simp)
        · rw [if_neg hr] at ht
          cases hp : parse_response loads resp with
          | error e =>
              rw [hp] at ht
              rw [show pvLookup (errorPostsDict e) "twitter_post" = some .null
                from rfl] at ht
              injection ht with ht
              exact absurd ht (by simp)
          | ok posts =>
              rw [hp] at ht
              replace ht : pvLookup
                  (match successPostsDict posts with
                   | .ok d => d
                   | .error e => errorPostsDict e) "twitter_post" =
                  some (.str t) := ht
              cases hs : successPostsDict posts with
              | error e =>
                  rw [hs] at ht
                  rw [show pvLookup (errorPostsDict e) "twitter_post" =
                    some .null from rfl] at ht
                  injection ht with ht
                  exact absurd ht (by simp)
              | ok d =>
                  rw [hs] at ht
                  obtain ⟨lp, tp, ki, ti2, au, da, g1, g2, g3, g4, hd⟩ :=
                    successPostsDict_ok hs
                  subst hd
                  rw [show pvLookup (PyVal.dict
                    [("status", .str "success"), ("linkedin_post", lp),
                     ("twitter_post", tp), ("key_insights", ki),
                     ("article_title", ti2), ("article_author", au),
                     ("article_date", da)]) "twitter_post" = some tp
                    from rfl] at ht
                  injection ht with ht
                  subst ht
                  obtain ⟨kvs, hpk, hw⟩ := pyGetD_ok_dict g2
                  subst hpk
                  cases hlk : kvs.lookup "twitter_post" with
                  | none =>
                      rw [hlk] at hw
                      simp only [Option.getD_none] at hw
                      injection hw.symm with hw2
                      subst hw2
                      simp
                  | some w =>
                      rw [hlk] at hw
                      simp only [Option.getD_some] at hw
                      subst hw
                      exact parse_response_twitter_bound hp t
                        (by rw [show pvLookup (PyVal.dict kvs) "twitter_post" =
                          kvs.lookup "twitter_post" from rfl, hlk])
  · intro loads resp kvs tw hr hd hlk htw
    have hp := parse_response_truncates hd hlk htw
    unfold generate_posts_from_text postsFromApi
    simp only [hp, if_neg hr]
    rfl

theorem twitter_post_hard_cap_witness :
    (pvLookup (generate_posts_from_text (fun _ => .error ()) (.ok "raw"))
        "twitter_post" = some (.str (pyTake (stripFences "raw") 280))) ∧
    ((pyTake (stripFences "raw") 280).length ≤ 280) ∧
    (("longcase" : String) ≠ "") ∧
    (280 < (String.mk (List.replicate 300 'a')).length) ∧
    pvLookup (generate_posts_from_text loadsLong (.ok "longcase"))
        "twitter_post" =
      some (.str (String.mk
        ((String.mk (List.replicate 300 'a')).data.take 277 ++ "...".data))) :=
  ⟨rfl,
   twitter_post_hard_cap.1 (fun _ => .error ()) (.ok "raw") _ rfl,
   by decide, by decide,
   twitter_post_hard_cap.2 loadsLong "longcase"
     [("twitter_post", PyVal.str (String.mk (List.replicate 300 'a')))]
     (String.mk (List.replicate 300 'a')) (by decide) rfl rfl (by decide)⟩

/-- A run whose summarizer node left the error flag clear took the success
branch: the original error flag was clear, the try block succeeded, and the
node appended the single success entry. -/
theorem summarizer_node_success {loads : String → Except Unit PyVal}
    {aS aD : Except String String} {st : WorkflowState}
    (h : (summarizer_node loads aS aD st).error = "") :
    st.error = "" ∧ ∃ t, summarizerTry loads aS aD st = .ok t ∧
      summarizer_node loads aS aD st =
        add_audit_entry { st with posts_data := t.posts } "SummarizationAgent"
          "generate_posts" t.input_data t.output_data "success" := by
  unfold summarizer_node at h ⊢
  cases htry : summarizerTry loads aS aD st with
  | error e =>
      rw [htry] at h
      exact absurd h (prefixed_ne_empty "Summarizer error: " e (by decide))
  | ok t =>
      rw [htry] at h
      obtain ⟨inp, posts, outd, sv, ev⟩ := t
      cases sv with
      | str s =>
          by_cases hs : s = "success"
          · subst hs
            exact ⟨h, ⟨inp, posts, outd, .str "success", ev⟩, rfl, rfl⟩
          · replace h : ((if s = "success" then
                add_audit_entry { st with posts_data := posts }
                  "SummarizationAgent" "generate_posts" inp outd "success"
              else summErrStatus { st with posts_data := posts }
                ⟨inp, posts, outd, .str s, ev⟩) : WorkflowState).error = "" := h
            rw [if_neg hs] at h
            exact absurd h
              (prefixed_ne_empty "Post generation failed: " _ (by decide))
      | null =>
          exact absurd h
            (prefixed_ne_empty "Post generation failed: " _ (by decide))
      | bool b =>
          exact absurd h
            (prefixed_ne_empty "Post generation failed: " _ (by decide))
      | num m =>
          exact absurd h
            (prefixed_ne_empty "Post generation failed: " _ (by decide))
      | list xs =>
          exact absurd h
            (prefixed_ne_empty "Post generation failed: " _ (by decide))
      | dict kvs =>
          exact absurd h
            (prefixed_ne_empty "Post generation failed: " _ (by decide))
      | time =>
          exact absurd h
            (prefixed_ne_empty "Post generation failed: " _ (by decide))

/-- The reads a successful summarizer try performed on its posts dict,
restated on the try record. -/
theorem summarizerTry_ok_reads {loads : String → Except Unit PyVal}
    {aS aD : Except String String} {st : WorkflowState} {t : SummTry}
    (h : summarizerTry loads aS aD st = .ok t) :
    ∃ kv n, pyGetD t.posts "key_insights" (.list []) = .ok kv ∧
      pyLen kv = .ok n := by
  unfold summarizerTry at h
  cases hc : resolveChoice st.use_web_scraping st.url st.article_text <;>
    rw [hc] at h
  · obtain ⟨-, hp, -, kv, n, hkv, hlen⟩ := summTryBody_ok h
    exact ⟨kv, n, hp ▸ hkv, hlen⟩
  · obtain ⟨-, hp, -, kv, n, hkv, hlen⟩ := summTryBody_ok h
    exact ⟨kv, n, hp ▸ hkv, hlen⟩
  · exact absurd h (by simp)

/-- With the error flag clear and readable posts fields, the creative node
on a successful image oracle takes the success branch, appending the image
audit entry built only from booleans and character lengths. -/
theorem creative_node_success_run {st : WorkflowState} (b1 b2 : String)
    (he : st.error = "") (tv av dv kv : PyVal) (k : Nat)
    (h1 : pyGetD st.posts_data "article_title" (.str "Article") = .ok tv)
    (h2 : pyGet1 st.posts_data "article_author" = .ok av)
    (h3 : pyGet1 st.posts_data "article_date" = .ok dv)
    (h4 : pyGetD st.posts_data "key_insights" (.list []) = .ok kv)
    (h5 : pyLen kv = .ok k) :
    creative_node (.ok (b1, b2)) st =
      add_audit_entry
        { st with images_data := generate_images (.ok (b1, b2)) }
        "CreativeAgent" "generate_images"
        (imagesAuditInput tv k) (imagesAuditOutput b1 b2) "success" := by
  have hne : ¬(st.error ≠ "") := by simp [he]
  unfold creative_node
  rw [if_neg hne]
  have htry : creativeTry (.ok (b1, b2)) st = .ok
      { input_data := imagesAuditInput tv k,
        images := generate_images (.ok (b1, b2)),
        errVal := .str "Unknown error",
        successOut := some (imagesAuditOutput b1 b2) } := by
    simp only [creativeTry, h1, h2, h3, h4, h5, ok_bind]
    rfl
  rw [htry]

/-- Strings under a looked-up value occur among the dict value strings. -/
theorem stringsOf_lookup {kvs : List (String × PyVal)} {k : String} {w : PyVal}
    (h : kvs.lookup k = some w) {s : String} (hs : s ∈ stringsOf w) :
    s ∈ stringsOf (.dict kvs) := by
  show s ∈ stringsOfKvs kvs
  induction kvs with
  | nil => simp [List.lookup] at h
  | cons a rest ih =>
      obtain ⟨ka, va⟩ := a
      show s ∈ stringsOf va ++ stringsOfKvs rest
      rw [List.mem_append]
      cases hkk : (k == ka) with
      | true =>
          simp only [List.lookup, hkk] at h
          injection h with h
          subst h
          exact Or.inl hs
      | false =>
          simp only [List.lookup, hkk] at h
          exact Or.inr (ih h)

/-- Claim C8: in a successful run the image stage audit entry summarises the
two images only as generated-booleans and character lengths; the base64
payloads do not occur anywhere in the entry input or output summaries
(whenever they do not collide with the handful of small fixed strings), yet
the full payloads do appear in the images field of the final output. -/
theorem audit_summaries_no_image_payload
    (loads : String → Except Unit PyVal) (aS aD : Except String String)
    (b1 b2 : String) (url text : String) (usw : Bool)
    (h1 : ¬(url = "" ∧ text = "")) (h2 : ¬(usw ∧ url = ""))
    (herr : (summarizer_node loads aS aD (startedState url text usw)).error = "")
    (hb1 : b1 ∉ stringsOf
      (summarizer_node loads aS aD (startedState url text usw)).posts_data)
    (hb2 : b2 ∉ stringsOf
      (summarizer_node loads aS aD (startedState url text usw)).posts_data)
    (hb1f : b1 ∉ (["Article", "success", "infographic", "social_media"] :
      List String))
    (hb2f : b2 ∉ (["Article", "success", "infographic", "social_media"] :
      List String)) :
    ∃ r e, process_url loads aS aD (.ok (b1, b2)) url text usw = .ok r ∧
      r.audit_trail[2]? = some e ∧
      e.agent = "CreativeAgent" ∧ e.step = "generate_images" ∧
      e.output = .dict [("status", .str "success"),
        ("infographic_generated", .bool (b1 != "")),
        ("social_image_generated", .bool (b2 != "")),
        ("infographic_size_chars", .num b1.length),
        ("social_image_size_chars", .num b2.length)] ∧
      b1 ∉ stringsOf e.input ∧ b1 ∉ stringsOf e.output ∧
      b2 ∉ stringsOf e.input ∧ b2 ∉ stringsOf e.output ∧
      r.output.images = some (.str b1, .str b2) := by
  obtain ⟨hst0, t, htry, hAeq⟩ := summarizer_node_success herr
  have hdict : isDict t.posts = true := summarizerTry_ok_posts htry
  have hposts : (summarizer_node loads aS aD
      (startedState url text usw)).posts_data = t.posts := by
    rw [hAeq]
    rfl
  have hdictA : isDict (summarizer_node loads aS aD
      (startedState url text usw)).posts_data = true := by
    rw [hposts]; exact hdict
  obtain ⟨tv, g1⟩ := pyGetD_isOk hdictA "article_title" (.str "Article")
  obtain ⟨av, g2⟩ := pyGet1_isOk hdictA "article_author"
  obtain ⟨dv, g3⟩ := pyGet1_isOk hdictA "article_date"
  obtain ⟨kv, n, hkv, hlen⟩ := summarizerTry_ok_reads htry
  have g4 : pyGetD (summarizer_node loads aS aD
      (startedState url text usw)).posts_data "key_insights" (.list []) =
      .ok kv := by
    rw [hposts]; exact hkv
  have hcre := creative_node_success_run b1 b2 herr tv av dv kv n g1 g2 g3 g4 hlen
  have hBerr : (creative_node (.ok (b1, b2)) (summarizer_node loads aS aD
      (startedState url text usw))).error = "" := by
    rw [hcre]; exact herr
  have hBne : ¬((creative_node (.ok (b1, b2)) (summarizer_node loads aS aD
      (startedState url text usw))).error ≠ "") := by
    simp [hBerr]
  have hBposts : (creative_node (.ok (b1, b2)) (summarizer_node loads aS aD
      (startedState url text usw))).posts_data =
      (summarizer_node loads aS aD (startedState url text usw)).posts_data := by
    rw [hcre]
    rfl
  have hBimgs : (creative_node (.ok (b1, b2)) (summarizer_node loads aS aD
      (startedState url text usw))).images_data =
      generate_images (.ok (b1, b2)) := by
    rw [hcre]
    rfl
  have hpB : isDict (creative_node (.ok (b1, b2)) (summarizer_node loads aS aD
      (startedState url text usw))).posts_data = true := by
    rw [hBposts]; exact hdictA
  have hiB : isDict (creative_node (.ok (b1, b2)) (summarizer_node loads aS aD
      (startedState url text usw))).images_data = true := by
    rw [hBimgs]; rfl
  obtain ⟨st', hok, ⟨e3, ht3, ha3, hs3⟩, hurl, ti2, au2, da2, lp2, tp2, ki2,
    inf2, soc2, q1, q2, q3, q4, q5, q6, hfo⟩ := coordinatorSuccess_ok hpB hiB
  rw [hBimgs] at q5 q6
  rw [show pyGet1 (generate_images (.ok (b1, b2))) "infographic_image" =
    .ok (.str b1) from rfl] at q5
  injection q5 with q5
  subst q5
  rw [show pyGet1 (generate_images (.ok (b1, b2))) "social_image" =
    .ok (.str b2) from rfl] at q6
  injection q6 with q6
  subst q6
  have hcn : coordinator_node (creative_node (.ok (b1, b2))
      (summarizer_node loads aS aD (startedState url text usw))) = .ok st' := by
    unfold coordinator_node
    rw [if_neg hBne]
    exact hok
  have hrun : process_url loads aS aD (.ok (b1, b2)) url text usw = .ok
      { output := successEnvelope (creative_node (.ok (b1, b2))
          (summarizer_node loads aS aD (startedState url text usw)))
          ti2 au2 da2 lp2 tp2 ki2 (.str b1) (.str b2),
        audit_trail := st'.audit_trail ++
          [{ agent := "System", step := "workflow_complete",
             status := "success",
             input := .dict [("total_duration_ms", .time)],
             output := .dict [("status", .str "success"),
               ("total_audit_entries", .num st'.audit_trail.length)] }] } := by
    unfold process_url
    rw [if_neg h1, if_neg h2, hcn, ok_bind, hfo]
    rfl
  have htA : (summarizer_node loads aS aD
      (startedState url text usw)).audit_trail =
      (startedState url text usw).audit_trail ++
        [{ agent := "SummarizationAgent", step := "generate_posts",
           status := "success", input := t.input_data,
           output := t.output_data }] := by
    rw [hAeq]
    rfl
  have htB : (creative_node (.ok (b1, b2)) (summarizer_node loads aS aD
      (startedState url text usw))).audit_trail =
      (summarizer_node loads aS aD (startedState url text usw)).audit_trail ++
        [imagesAuditEntry tv n b1 b2] := by
    rw [hcre]
    rfl
  have hb1in : b1 ∉ stringsOf (imagesAuditInput tv n) := by
    intro hmem
    simp only [imagesAuditInput, stringsOf, stringsOfKvs, stringsOfList,
      List.append_nil, List.nil_append, List.mem_append, List.mem_cons,
      List.not_mem_nil, or_false] at hmem
    rcases hmem with hmem | hmem | hmem
    · obtain ⟨kvsA, hAd, hw⟩ := pyGetD_ok_dict g1
      cases hl : kvsA.lookup "article_title" with
      | none =>
          rw [hl] at hw
          simp only [Option.getD_none] at hw
          subst hw
          simp only [stringsOf, List.mem_singleton] at hmem
          exact hb1f (by simp [hmem])
      | some w =>
          rw [hl] at hw
          simp only [Option.getD_some] at hw
          subst hw
          exact hb1 (hAd ▸ stringsOf_lookup hl hmem)
    · exact hb1f (by simp [hmem])
    · exact hb1f (by simp [hmem])
  have hb2in : b2 ∉ stringsOf (imagesAuditInput tv n) := by
    intro hmem
    simp only [imagesAuditInput, stringsOf, stringsOfKvs, stringsOfList,
      List.append_nil, List.nil_append, List.mem_append, List.mem_cons,
      List.not_mem_nil, or_false] at hmem
    rcases hmem with hmem | hmem | hmem
    · obtain ⟨kvsA, hAd, hw⟩ := pyGetD_ok_dict g1
      cases hl : kvsA.lookup "article_title" with
      | none =>
          rw [hl] at hw
          simp only [Option.getD_none] at hw
          subst hw
          simp only [stringsOf, List.mem_singleton] at hmem
          exact hb2f (by simp [hmem])
      | some w =>
          rw [hl] at hw
          simp only [Option.getD_some] at hw
          subst hw
          exact hb2 (hAd ▸ stringsOf_lookup hl hmem)
    · exact hb2f (by simp [hmem])
    · exact hb2f (by simp [hmem])
  refine ⟨_, imagesAuditEntry tv n b1 b2,
    hrun, ?_, rfl, rfl, rfl, hb1in, ?_, hb2in, ?_, rfl⟩
  · rw [ht3, htB, htA]
    simp [startedState, initialState, add_audit_entry]
  · intro hmem
    simp only [imagesAuditEntry, imagesAuditOutput, stringsOf, stringsOfKvs,
      List.append_nil, List.nil_append, List.mem_append, List.mem_cons,
      List.not_mem_nil, or_false] at hmem
    exact hb1f (by simp [hmem])
  · intro hmem
    simp only [imagesAuditEntry, imagesAuditOutput, stringsOf, stringsOfKvs,
      List.append_nil, List.nil_append, List.mem_append, List.mem_cons,
      List.not_mem_nil, or_false] at hmem
    exact hb2f (by simp [hmem])

theorem audit_summaries_no_image_payload_witness :
    ((summarizer_node goodLoads (.error "unused") (.ok "RESP")
        (startedState "" "some text" false)).error = "") ∧
    ("IMGDATA1" ∉ stringsOf (summarizer_node goodLoads (.error "unused")
        (.ok "RESP") (startedState "" "some text" false)).posts_data) ∧
    ∃ r e, process_url goodLoads (.error "unused") (.ok "RESP")
        (.ok ("IMGDATA1", "IMGDATA2")) "" "some text" false = .ok r ∧
      r.audit_trail[2]? = some e ∧
      e.agent = "CreativeAgent" ∧ e.step = "generate_images" ∧
      e.output = .dict [("status", .str "success"),
        ("infographic_generated", .bool ("IMGDATA1" != "")),
        ("social_image_generated", .bool ("IMGDATA2" != "")),
        ("infographic_size_chars", .num "IMGDATA1".length),
        ("social_image_size_chars", .num "IMGDATA2".length)] ∧
      "IMGDATA1" ∉ stringsOf e.input ∧ "IMGDATA1" ∉ stringsOf e.output ∧
      "IMGDATA2" ∉ stringsOf e.input ∧ "IMGDATA2" ∉ stringsOf e.output ∧
      r.output.images = some (.str "IMGDATA1", .str "IMGDATA2") :=
  ⟨rfl, by decide,
   audit_summaries_no_image_payload goodLoads (.error "unused") (.ok "RESP")
     "IMGDATA1" "IMGDATA2" "" "some text" false (by simp) (by simp) rfl
     (by decide) (by decide) (by decide) (by decide)⟩
